import Mathlib

/-!
Verification development for the `security` package of the AI_broswer
repository: a shallow embedding of `security_layer.py` and the modules it
composes (`pattern_matcher.py`, `context_analyzer.py`, `rule_engine.py`,
`risk_assessor.py`, `audit_logger.py`, `confirmation_requester.py`,
`utils.py`), followed by theorems about the embedded definitions.

Modelling conventions:
* Python floats are modelled as rationals (`ℚ`); every property proved here
  depends only on comparisons that are stable under rounding.
* Python dicts holding heterogeneous values (the `context` arguments) are
  modelled as ordered association lists of JSON-like values (`JVal`), with
  `dict.get`/truthiness/`dict.update` translated explicitly.
* `re` patterns are translated into a small regex AST (`RE`) with a
  set-of-end-positions matcher.  Existence of a match (`re.search`) is exact
  for the translated patterns; for `re.findall` the engine reports
  leftmost-longest non-overlapping matches (Python's backtracking priority
  and group extraction are abstracted; the claims only depend on match
  existence and on inputs where the match sets are empty).
* `hashlib.md5(...).hexdigest()[:n]` is modelled as an injective function of
  its input: the development only relies on digest equality for equal inputs
  (true of md5) and digest inequality for the handful of concrete distinct
  inputs appearing in counterexamples (no md5 collisions among them).
* `datetime.now()` is passed in as an explicit rational timestamp (minutes),
  and ISO timestamp strings as explicit string arguments.
* Interactive user input (`AsyncInputProvider`) is modelled as the list of
  strings the user types; end of input behaves like `EOFError`
  ("interrupted"), exactly as the `except (KeyboardInterrupt, EOFError)`
  handler does.
-/

namespace AIBrowser

/- The Batteries rational-arithmetic primitives are `@[irreducible]`, which
blocks `decide` on the concrete scenarios below; restore the default
reducibility so the kernel can evaluate them. -/
unseal Rat.ofScientific Rat.mul Rat.inv Rat.add Rat.sub

set_option maxRecDepth 10000

/-! ### Characters and strings -/

/-- Lowercase a character: ASCII plus the Cyrillic ranges used by the
source's string literals (Python `str.lower` restricted to the alphabets
that occur in the repository). -/
def lowerChar (c : Char) : Char :=
  if 'A' ≤ c ∧ c ≤ 'Z' then Char.ofNat (c.toNat + 32)
  else if 'А' ≤ c ∧ c ≤ 'Я' then Char.ofNat (c.toNat + 32)
  else if c = 'Ё' then 'ё'
  else c

def lowerStr (s : String) : String := ⟨s.data.map lowerChar⟩

/-- Word character for `\b` / `\w` under `re.UNICODE`: ASCII alphanumerics,
underscore, and the Cyrillic letters that occur in the source's data. -/
def wordChar (c : Char) : Bool :=
  c.isAlphanum || c = '_' || (0x400 ≤ c.toNat && c.toNat ≤ 0x4FF)

/-- Substring containment on character lists (`needle in haystack`). -/
def subIn (nd : List Char) : List Char → Bool
  | [] => nd.isEmpty
  | c :: t => nd.isPrefixOf (c :: t) || subIn nd t

/-- Python `needle in haystack` on strings. -/
def strIn (nd hay : String) : Bool := subIn nd.data hay.data

/-- Case-insensitive containment: `needle in haystack.lower()` with the
needle already lowercase in the source. -/
def strInLower (nd hay : String) : Bool := strIn (lowerStr nd) (lowerStr hay)

def strStarts (pre s : String) : Bool := pre.data.isPrefixOf s.data

def strEnds (suf s : String) : Bool := suf.data.reverse.isPrefixOf s.data.reverse

/-- Python `s[:n]`. -/
def strTake (n : Nat) (s : String) : String := ⟨s.data.take n⟩

def strDropL (n : Nat) (s : String) : String := ⟨s.data.drop n⟩

/-- Python `s.strip()` (ASCII whitespace). -/
def strStrip (s : String) : String :=
  ⟨(s.data.dropWhile Char.isWhitespace).reverse.dropWhile Char.isWhitespace |>.reverse⟩

/-! ### JSON-like values: the model of Python dict contexts -/

inductive JVal where
  | b (x : Bool)
  | s (x : String)
  | q (x : ℚ)
  | arr (xs : List JVal)
  | obj (kvs : List (String × JVal))

/-- Python truthiness of a value. -/
def JVal.truthy : JVal → Bool
  | .b x => x
  | .s x => x ≠ ""
  | .q x => x ≠ 0
  | .arr xs => !xs.isEmpty
  | .obj kvs => !kvs.isEmpty

/-- A Python dict: ordered association list with unique keys. -/
abbrev Ctx := List (String × JVal)

/-- `d.get(k)` (first binding wins, mirroring dict lookup). -/
def jget (d : Ctx) (k : String) : Option JVal :=
  (d.find? (fun kv => kv.1 = k)).map Prod.snd

/-- `k in d`. -/
def jhas (d : Ctx) (k : String) : Bool := (jget d k).isSome

/-- Truthiness of `d.get(k, False)`. -/
def jgetB (d : Ctx) (k : String) : Bool :=
  match jget d k with
  | some v => v.truthy
  | none => false

/-- `d.get(k, default)` read as a string. -/
def jgetS (d : Ctx) (k : String) (dflt : String) : String :=
  match jget d k with
  | some (.s x) => x
  | _ => dflt

/-- `d.get(k, default)` read as a number. -/
def jgetQ (d : Ctx) (k : String) (dflt : ℚ) : ℚ :=
  match jget d k with
  | some (.q x) => x
  | _ => dflt

/-- Set one key: replace in place if present (dict assignment), else append. -/
def jset (d : Ctx) (k : String) (v : JVal) : Ctx :=
  if jhas d k then d.map (fun kv => if kv.1 = k then (k, v) else kv)
  else d ++ [(k, v)]

/-- `d.update(kvs)`. -/
def jupd (d : Ctx) (kvs : Ctx) : Ctx := kvs.foldl (fun acc kv => jset acc kv.1 kv.2) d

/-- Python's `min` on two floats (kernel-reducible form). -/
def qmin (a b : ℚ) : ℚ := if a ≤ b then a else b

/-- Canonical serialization of a rational (injective; the textual shape of
Python's float printing is abstracted away). -/
def encQ (x : ℚ) : String := toString x.num ++ "/" ++ toString x.den

/-- Comma-separated join. -/
def joinComma : List String → String
  | [] => ""
  | [x] => x
  | x :: t => x ++ ", " ++ joinComma t

/-- Stable insertion sort (Python's `sorted`; keys are unique here). -/
def insertSorted (le : α → α → Bool) (x : α) : List α → List α
  | [] => [x]
  | y :: t => if le x y then x :: y :: t else y :: insertSorted le x t

def insSort (le : α → α → Bool) : List α → List α
  | [] => []
  | x :: t => insertSorted le x (insSort le t)

/-- `json.dumps(v, sort_keys=True)` with explicit recursion fuel (any fuel
at least the value's nesting depth gives the encoding; `encJ` supplies
`sizeOf`, which always suffices): canonical JSON encoding with object keys
sorted.  The encoding is injective on the model; as in the source it is only
ever consumed by the (injectively modelled) digest. -/
def encJF (le : String → String → Bool) : Nat → JVal → String
  | 0, _ => ""
  | _ + 1, .b true => "true"
  | _ + 1, .b false => "false"
  | _ + 1, .s x => "\"" ++ x ++ "\""
  | _ + 1, .q x => encQ x
  | f + 1, .arr xs => "[" ++ joinComma (xs.map (fun z => encJF le f z)) ++ "]"
  | f + 1, .obj kvs =>
      "\x7b" ++
        joinComma ((insSort (fun a b => le a.1 b.1) kvs).map
          (fun z => "\"" ++ z.1 ++ "\": " ++ encJF le f z.2)) ++
        "\x7d"

mutual
/-- Nesting depth of a JSON value (the fuel bound for `encJF`). -/
def jdepth : JVal → Nat
  | .b _ => 0
  | .s _ => 0
  | .q _ => 0
  | .arr xs => 1 + jdepthL xs
  | .obj kvs => 1 + jdepthO kvs
def jdepthL : List JVal → Nat
  | [] => 0
  | v :: t => max (jdepth v) (jdepthL t)
def jdepthO : List (String × JVal) → Nat
  | [] => 0
  | (_, v) :: t => max (jdepth v) (jdepthO t)
end

def encJ (v : JVal) : String := encJF (fun a b => decide (a ≤ b)) (jdepth v + 1) v

def encCtx (d : Ctx) : String := encJ (.obj d)

/-! ### Regex engine

A small AST for the fixed regular expressions appearing in the source, with
a matcher computing the set of possible end positions of a match starting at
a given position.  `re.search` existence is exact under this semantics. -/

inductive RE where
  | eps
  | cls (p : Char → Bool)
  | seq (a b : RE)
  | alt (a b : RE)
  | star (a : RE)
  | bnd
  | bos
  | eos

/-- One character, case-insensitively (`re.IGNORECASE`). -/
def chCI (c : Char) : RE := .cls (fun d => lowerChar d = lowerChar c)

/-- Literal string, case-insensitively. -/
def litCI (s : String) : RE := (s.data.map chCI).foldr .seq .eps

def reOpt (a : RE) : RE := .alt a .eps

def rePlus (a : RE) : RE := .seq a (.star a)

/-- `a{n}`. -/
def reN : Nat → RE → RE
  | 0, _ => .eps
  | n + 1, a => .seq a (reN n a)

/-- Up to `n` further occurrences: `(a (a …)?)?` nesting. -/
def reUpTo : Nat → RE → RE
  | 0, _ => .eps
  | n + 1, a => reOpt (.seq a (reUpTo n a))

/-- `a{lo,hi}`. -/
def reBetween (lo hi : Nat) (a : RE) : RE := .seq (reN lo a) (reUpTo (hi - lo) a)

/-- `a{lo,}`. -/
def reAtLeast (lo : Nat) (a : RE) : RE := .seq (reN lo a) (.star a)

/-- Alternation of a nonempty list (left-nested like the source's `(x|y|z)`). -/
def reAlts : List RE → RE
  | [] => .cls (fun _ => false)
  | [a] => a
  | a :: t => .alt a (reAlts t)

def reAltLits (ss : List String) : RE := reAlts (ss.map litCI)

/-- Word boundary at position `i` of `s`. -/
def isBnd (s : List Char) (i : Nat) : Bool :=
  let prevW := match i with
    | 0 => false
    | j + 1 => match s.get? j with | some c => wordChar c | none => false
  let curW := match s.get? i with | some c => wordChar c | none => false
  prevW != curW

/-- Iterate a single-step match relation (Kleene star), with enough fuel to
cover the input; only steps that consume input recurse. -/
def starIter (step : Nat → List Nat) : Nat → Nat → List Nat
  | 0, i => [i]
  | f + 1, i =>
      (i :: ((step i).filter (fun j => i < j)).flatMap (starIter step f)).eraseDups

/-- End positions of matches of a regex starting at position `i`, with
explicit recursion fuel (any fuel above the pattern size gives the match
set; `reMatch` supplies `sizeOf`, which always suffices). -/
def reMatchF (s : List Char) : Nat → RE → Nat → List Nat
  | 0, _, _ => []
  | _ + 1, .eps, i => [i]
  | _ + 1, .cls p, i =>
      match s.get? i with
      | some c => if p c then [i + 1] else []
      | none => []
  | f + 1, .seq a b, i => (((reMatchF s f a i).flatMap (reMatchF s f b)).eraseDups)
  | f + 1, .alt a b, i => ((reMatchF s f a i ++ reMatchF s f b i).eraseDups)
  | f + 1, .star a, i => starIter (reMatchF s f a) (s.length + 1) i
  | _ + 1, .bnd, i => if isBnd s i then [i] else []
  | _ + 1, .bos, i => if i = 0 then [i] else []
  | _ + 1, .eos, i => if i = s.length then [i] else []

/-- Size of a pattern (the fuel bound for `reMatchF`). -/
def reSize : RE → Nat
  | .eps => 1
  | .cls _ => 1
  | .seq a b => 1 + reSize a + reSize b
  | .alt a b => 1 + reSize a + reSize b
  | .star a => 1 + reSize a
  | .bnd => 1
  | .bos => 1
  | .eos => 1

def reMatch (s : List Char) (r : RE) (i : Nat) : List Nat :=
  reMatchF s (reSize r) r i

/-- `re.search(r, s)` succeeds. -/
def reSearch (r : RE) (s : String) : Bool :=
  (List.range (s.data.length + 1)).any (fun i => !(reMatch s.data r i).isEmpty)

/-- Largest end position of a match at `i`, if any. -/
def reBestEnd (r : RE) (s : List Char) (i : Nat) : Option Nat :=
  (reMatch s r i).foldl (fun acc j => match acc with
    | none => some j
    | some k => some (max j k)) none

/-- Non-overlapping scan used by `re.findall`: record a (start, end) pair at
the leftmost match, resume after its end (or one past an empty match). -/
def findAllFrom (r : RE) (s : List Char) : Nat → Nat → List (Nat × Nat)
  | 0, _ => []
  | f + 1, i =>
      if i ≤ s.length then
        match reBestEnd r s i with
        | none => findAllFrom r s f (i + 1)
        | some e =>
            if e ≤ i then (i, i) :: findAllFrom r s f (i + 1)
            else (i, e) :: findAllFrom r s f e
      else []

/-- `re.findall(r, s)` as the list of matched substrings. -/
def reFindAll (r : RE) (s : String) : List String :=
  (findAllFrom r s.data (s.data.length + 1) 0).map
    (fun pr => ⟨(s.data.drop pr.1).take (pr.2 - pr.1)⟩)

/-- `re.sub(r, f, s)` with a function replacement: splice the replacement of
each non-overlapping match into the surrounding text. -/
def reSubSplice (s : List Char) (f : String → String) : Nat → List (Nat × Nat) → List Char
  | i, [] => s.drop i
  | i, (a, b) :: t =>
      ((s.drop i).take (a - i)) ++ (f ⟨(s.drop a).take (b - a)⟩).data ++
        reSubSplice s f b t
def reSubAll (r : RE) (f : String → String) (s : String) : String :=
  ⟨reSubSplice s.data f 0 (findAllFrom r s.data (s.data.length + 1) 0)⟩

/-! ### Character classes used by the source's patterns -/

def dCl : RE := .cls Char.isDigit
def spCl : RE := .cls Char.isWhitespace
def anyCl : RE := .cls (fun _ => true)
def wCl : RE := .cls wordChar
def nonSpCl : RE := .cls (fun c => !c.isWhitespace)
def alphaCl : RE := .cls Char.isAlpha
def alnumCl : RE := .cls Char.isAlphanum
/-- Cyrillic letter (any case: the source compiles with `re.IGNORECASE`). -/
def cyrCl : RE := .cls (fun c => (0x410 ≤ c.toNat && c.toNat ≤ 0x44F) || c = 'ё' || c = 'Ё')
/-- `[A-Za-z0-9._%+-]` (email local part). -/
def emailLocalCl : RE := .cls (fun c => c.isAlphanum || c = '.' || c = '_' || c = '%' || c = '+' || c = '-')
/-- `[A-Za-z0-9.-]` (email domain part). -/
def emailDomCl : RE := .cls (fun c => c.isAlphanum || c = '.' || c = '-')
/-- `[A-Z|a-z]` (the source's TLD class, `|` included literally). -/
def tldCl : RE := .cls (fun c => c.isAlpha || c = '|')
/-- `[\s-]`. -/
def spDashCl : RE := .cls (fun c => c.isWhitespace || c = '-')
/-- `[- ]`. -/
def dashSpaceCl : RE := .cls (fun c => c = '-' || c = ' ')
/-- Class of slash or dash (the expiry-date separator). -/
def slashDashCl : RE := .cls (fun c => c = '/' || c = '-')
/-- `[.,]`. -/
def dotCommaCl : RE := .cls (fun c => c = '.' || c = ',')
def digitRange (lo hi : Char) : RE := .cls (fun c => lo ≤ c && c ≤ hi)

def reSeq (l : List RE) : RE := l.foldr .seq .eps

/-- `a.*b` (a literal, a gap, a literal). -/
def gapRE (a b : String) : RE := reSeq [litCI a, .star anyCl, litCI b]

/-! ### `pattern_matcher.py`: `PatternMatcher._load_patterns`

Each entry is the translation of one regex string from the source, in the
source's order. -/

def emailRE : RE :=
  reSeq [.bnd, rePlus emailLocalCl, chCI '@', rePlus emailDomCl, chCI '.',
    reAtLeast 2 tldCl, .bnd]

def phoneRuRE : RE :=
  reSeq [.bnd, .alt (litCI "+7") (litCI "8"), reOpt spDashCl, reOpt (chCI '('),
    reN 3 dCl, reOpt (chCI ')'), reOpt spDashCl, reN 3 dCl, reOpt spDashCl,
    reN 2 dCl, reOpt spDashCl, reN 2 dCl, .bnd]

def phoneIntlRE : RE :=
  reSeq [.bnd, chCI '+', reBetween 1 3 dCl, reOpt spDashCl, reBetween 1 14 dCl, .bnd]

def passportRE : RE := reSeq [.bnd, reN 4 dCl, reOpt dashSpaceCl, reN 6 dCl, .bnd]

def innRE : RE := reSeq [.bnd, reBetween 10 12 dCl, .bnd]

def snilsRE : RE :=
  reSeq [.bnd, reN 3 dCl, chCI '-', reN 3 dCl, chCI '-', reN 3 dCl, chCI ' ',
    reN 2 dCl, .bnd]

def nameRE : RE :=
  .seq (.seq .bnd
    (.alt (reSeq [cyrCl, rePlus cyrCl, reBetween 1 2 (reSeq [rePlus spCl, cyrCl, rePlus cyrCl])])
          (reSeq [alphaCl, rePlus alphaCl, reBetween 1 2 (reSeq [rePlus spCl, alphaCl, rePlus alphaCl])])))
    .bnd

def addressRE : RE :=
  reSeq [.bnd,
    reAltLits ["ул.", "улица", "пр.", "проспект", "пер.", "переулок", "д.", "дом", "кв.", "квартира"],
    .bnd, .star anyCl, .bnd, rePlus dCl, .bnd]

def cardNumberRE : RE :=
  reSeq [.bnd, reN 4 dCl, reOpt dashSpaceCl, reN 4 dCl, reOpt dashSpaceCl,
    reN 4 dCl, reOpt dashSpaceCl, reN 4 dCl, .bnd]

def cvvRE : RE := reSeq [.bnd, reBetween 3 4 dCl, .bnd]

def expiryRE : RE :=
  reSeq [.bnd,
    .alt (.seq (chCI '0') (digitRange '1' '9')) (.seq (chCI '1') (digitRange '0' '2')),
    slashDashCl,
    .alt (.seq (chCI '2') (digitRange '0' '9')) (.seq (chCI '3') (digitRange '0' '9')),
    .bnd]

def ibanRE : RE := reSeq [.bnd, reN 2 alphaCl, reN 2 dCl, reBetween 1 30 alnumCl, .bnd]

def swiftRE : RE := reSeq [.bnd, reN 6 alphaCl, reN 2 alnumCl, reOpt (reN 3 alnumCl), .bnd]

def bankAccountRE : RE := reSeq [.bnd, reN 20 dCl, .bnd]

def amountRE : RE :=
  reSeq [.bnd, rePlus dCl, dotCommaCl, reN 2 dCl, .star spCl,
    reAlts [litCI "руб", litCI "р", litCI "usd", litCI "eur", litCI "€", RE.eos], .bnd]

def kwPasswordRE : RE :=
  reSeq [.bnd,
    reAlts [litCI "пароль", litCI "password", litCI "pwd", litCI "pass", litCI "ключ",
      litCI "key", litCI "pin", gapRE "код" "доступ", gapRE "secret" "key"],
    .bnd]

def kwSecretRE : RE :=
  reSeq [.bnd,
    reAltLits ["секрет", "secret", "confidential", "private", "приватный", "конфиденциальный"],
    .bnd]

def kwSecurityRE : RE :=
  reSeq [.bnd,
    reAlts [litCI "безопасность", litCI "security", litCI "auth", litCI "token",
      reSeq [litCI "api", reOpt anyCl, litCI "key"], gapRE "access" "token"],
    .bnd]

def kwLoginRE : RE :=
  reSeq [.bnd,
    reAlts [litCI "логин", litCI "login", litCI "username", gapRE "user" "name",
      gapRE "account" "name"],
    .bnd]

def kwAuthRE : RE :=
  reSeq [.bnd,
    reAltLits ["авторизация", "authorization", "авторизоваться", "authenticate"],
    .bnd]

def urlHttpRE : RE := .seq (litCI "http://") (rePlus nonSpCl)

def urlHttpsRE : RE := .seq (litCI "https://") (rePlus nonSpCl)

def ipAddressRE : RE :=
  reSeq [.bnd, reBetween 1 3 dCl, chCI '.', reBetween 1 3 dCl, chCI '.',
    reBetween 1 3 dCl, chCI '.', reBetween 1 3 dCl, .bnd]

def localPathRE : RE :=
  .alt (reSeq [alphaCl, chCI ':', chCI '\\', .cls (fun c => c ≠ '\\'), .star anyCl])
       (reSeq [chCI '/', .cls (fun c => c ≠ '/'), .star anyCl])

def dangerJsRE : RE :=
  reAlts [litCI "javascript:",
    reSeq [chCI '<', .star spCl, litCI "script", .star spCl, chCI '>'],
    litCI "eval(", litCI "alert(", litCI "document.cookie"]

def dangerSqlRE : RE :=
  reSeq [.bnd,
    reAlts [reSeq [litCI "union", rePlus spCl, litCI "select"],
      reSeq [litCI "select", rePlus spCl, .star anyCl, rePlus spCl, litCI "from"],
      reSeq [litCI "insert", rePlus spCl, litCI "into"],
      reSeq [litCI "delete", rePlus spCl, litCI "from"],
      reSeq [litCI "drop", rePlus spCl, litCI "table"]],
    .bnd]

def dangerXssRE : RE :=
  .alt (reSeq [chCI '<', .star spCl, reAltLits ["script", "iframe", "object", "embed"],
         .star spCl, chCI '>'])
       (reSeq [litCI "on", rePlus wCl, .star spCl, chCI '='])

/-- `PatternMatcher._load_patterns`, in source order. -/
def matcherPatterns : List (String × List (String × RE)) :=
  [("personal_data",
     [("email", emailRE), ("phone_ru", phoneRuRE), ("phone_international", phoneIntlRE),
      ("passport", passportRE), ("inn", innRE), ("snils", snilsRE), ("name", nameRE),
      ("address", addressRE)]),
   ("financial_data",
     [("card_number", cardNumberRE), ("cvv", cvvRE), ("expiry_date", expiryRE),
      ("iban", ibanRE), ("swift", swiftRE), ("bank_account", bankAccountRE),
      ("amount", amountRE)]),
   ("sensitive_keywords",
     [("password", kwPasswordRE), ("secret", kwSecretRE), ("security", kwSecurityRE),
      ("login", kwLoginRE), ("authorization", kwAuthRE)]),
   ("url_patterns",
     [("http", urlHttpRE), ("https", urlHttpsRE), ("ip_address", ipAddressRE),
      ("local_path", localPathRE)]),
   ("dangerous_patterns",
     [("javascript", dangerJsRE), ("sql_injection", dangerSqlRE), ("xss", dangerXssRE)])]

/-- `PatternMatcher.find_patterns(text, "all")`: per-pattern match lists,
keeping only non-empty pattern entries and non-empty categories.  (The
per-pattern `try/except` in the source can only skip a pattern on a regex
error; all loaded patterns are valid, so no pattern is ever skipped.) -/
def findPatterns (text : String) : List (String × List (String × List String)) :=
  (matcherPatterns.map (fun cat =>
      (cat.1, (cat.2.map (fun p => (p.1, reFindAll p.2 text))).filter
        (fun p => !p.2.isEmpty)))).filter
    (fun cat => !cat.2.isEmpty)

def fpHasCat (res : List (String × List (String × List String))) (c : String) : Bool :=
  res.any (fun cat => cat.1 = c)

def fpCatNames (res : List (String × List (String × List String))) (c : String) : List String :=
  match res.find? (fun cat => cat.1 = c) with
  | some cat => cat.2.map Prod.fst
  | none => []

def fpTotal (res : List (String × List (String × List String))) : Nat :=
  (res.map (fun cat => (cat.2.map (fun p => p.2.length)).sum)).sum

/-! ### `utils.mask_sensitive_data` -/

/-- Replacement for a card-number match: `{m[:4]} **** **** {m[-4:]}`. -/
def maskCard (m : String) : String :=
  strTake 4 m ++ " **** **** " ++ ⟨(m.data.reverse.take 4).reverse⟩

/-- `\b(CVV|CVC)[:\s]*\d{3,4}\b` (for the `\1: ***` replacement the group is
the first three characters of the match). -/
def cvvMaskRE : RE :=
  reSeq [.bnd, .alt (litCI "CVV") (litCI "CVC"), .star (.cls (fun c => c = ':' || c.isWhitespace)),
    reBetween 3 4 dCl, .bnd]

/-- `(пароль|password)[:\s]*[^\s]+` (group 1 recovered as the matched
alternative prefix). -/
def pwdMaskRE : RE :=
  reSeq [.alt (litCI "пароль") (litCI "password"),
    .star (.cls (fun c => c = ':' || c.isWhitespace)), rePlus nonSpCl]

def pwdGroup (m : String) : String :=
  if strStarts "password" (lowerStr m) then strTake 8 m else strTake 6 m

/-- Replacement for an email match: `{local[:3]}***@{domain}`. -/
def maskEmail (m : String) : String :=
  let local_ : String := ⟨m.data.takeWhile (fun c => c ≠ '@')⟩
  let dom : String := ⟨(m.data.dropWhile (fun c => c ≠ '@')).drop 1⟩
  strTake 3 local_ ++ "***@" ++ dom

def maskPhone (m : String) : String :=
  strTake 4 m ++ " *** ** " ++ ⟨(m.data.reverse.take 2).reverse⟩

/-- `utils.mask_sensitive_data`: the four/five `re.sub` passes, in order. -/
def maskSensitiveData (text : String) : String :=
  if text = "" then text
  else
    let t1 := reSubAll cardNumberRE maskCard text
    let t2 := reSubAll cvvMaskRE (fun m => strTake 3 m ++ ": ***") t1
    let t3 :=
      if strIn "пароль" (lowerStr t2) || strIn "password" (lowerStr t2) then
        reSubAll pwdMaskRE (fun m => pwdGroup m ++ ": *******") t2
      else t2
    let t4 := reSubAll emailRE maskEmail t3
    reSubAll phoneRuRE maskPhone t4

/-! ### `PatternMatcher.extract_sensitive_data` -/

/-- The `results` dict as a JSON value (for storage into the context). -/
def fpToJVal (res : List (String × List (String × List String))) : JVal :=
  .obj (res.map (fun cat =>
    (cat.1, JVal.obj (cat.2.map (fun p => (p.1, JVal.arr (p.2.map JVal.s)))))))

/-- Python `str.split()` word count. -/
def wordCount (s : String) : Nat :=
  ((s.data.splitOnP Char.isWhitespace).filter (fun w => !w.isEmpty)).length

/-- `PatternMatcher.extract_sensitive_data(text)` as the returned dict. -/
def extractSensitiveData (text : String) : JVal :=
  let res := findPatterns text
  let total := fpTotal res
  let stats : Ctx :=
    [("total_patterns", .q total), ("has_personal_data", .b (fpHasCat res "personal_data")),
     ("has_financial_data", .b (fpHasCat res "financial_data")),
     ("has_sensitive_keywords", .b (fpHasCat res "sensitive_keywords")),
     ("has_dangerous_patterns", .b (fpHasCat res "dangerous_patterns"))]
  let containsPw := fpHasCat res "sensitive_keywords" &&
    (fpCatNames res "sensitive_keywords").contains "password"
  let containsFin := fpHasCat res "financial_data"
  let containsContact := fpHasCat res "personal_data" &&
    ((fpCatNames res "personal_data").contains "email" ||
     (fpCatNames res "personal_data").contains "phone_ru" ||
     (fpCatNames res "personal_data").contains "phone_international")
  let containsPersonal := fpHasCat res "personal_data"
  let containsDanger := fpHasCat res "dangerous_patterns"
  let confFactors : List ℚ :=
    (if containsPw then [(0.9 : ℚ)] else []) ++
    (if containsFin then [(0.8 : ℚ)] else []) ++
    (if containsDanger then [(0.95 : ℚ)] else []) ++
    (if 0 < total then [qmin ((total : ℚ) * 0.2) 1] else [])
  let conf : ℚ := if confFactors.isEmpty then 0 else confFactors.sum / confFactors.length
  let contextAnalysis : Ctx :=
    [("contains_passwords", .b containsPw), ("contains_financial", .b containsFin),
     ("contains_contact_info", .b containsContact),
     ("contains_personal_data", .b containsPersonal),
     ("contains_dangerous", .b containsDanger), ("confidence", .q conf)]
  let metadata : Ctx :=
    [("text_length", .q text.data.length), ("word_count", .q (wordCount text)),
     ("has_urls", .b (fpHasCat res "url_patterns")), ("extraction_time", .s "timestamp")]
  .obj [("patterns", fpToJVal res), ("stats", .obj stats),
    ("context", .obj contextAnalysis), ("masked_text", .s (maskSensitiveData text)),
    ("metadata", .obj metadata)]

/-! ### `interfaces.py`: enums and dataclasses -/

inductive SecurityLevel where
  | low | medium | high
deriving DecidableEq

def SecurityLevel.value : SecurityLevel → String
  | .low => "low"
  | .medium => "medium"
  | .high => "high"

inductive ActionType where
  | click | clickButton | clickLink
  | type | typePassword | typeEmail | typePhone | typeCard | typePersonal
  | navigate | navigateExternal | navigateSuspicious
  | formSubmit | payment | delete | socialAction | legalAction | scroll | analyze
deriving DecidableEq

def ActionType.value : ActionType → String
  | .click => "click"
  | .clickButton => "click_button"
  | .clickLink => "click_link"
  | .type => "type"
  | .typePassword => "type_password"
  | .typeEmail => "type_email"
  | .typePhone => "type_phone"
  | .typeCard => "type_card"
  | .typePersonal => "type_personal"
  | .navigate => "navigate"
  | .navigateExternal => "navigate_external"
  | .navigateSuspicious => "navigate_suspicious"
  | .formSubmit => "form_submit"
  | .payment => "payment"
  | .delete => "delete"
  | .socialAction => "social_action"
  | .legalAction => "legal_action"
  | .scroll => "scroll"
  | .analyze => "analyze"

structure RiskAssessment where
  score : ℚ
  level : String
  triggeredRules : List String
  recommendations : List String
  confidence : ℚ := 0.5
deriving DecidableEq

/-- A rule's `pattern` string: the empty string, a string that compiles to
the given regex, or a string that `re.compile` rejects (used when reasoning
about rules added through `add_rule`; every default rule's pattern is valid). -/
inductive PatternStr where
  | empty
  | valid (raw : String) (re : RE)
  | malformed (raw : String)

def PatternStr.raw : PatternStr → String
  | .empty => ""
  | .valid r _ => r
  | .malformed r => r

/-- Truthiness of `rule.pattern` (the empty string is falsy). -/
def PatternStr.truthy : PatternStr → Bool
  | .empty => false
  | .valid _ _ => true
  | .malformed _ => true

structure SecurityRule where
  name : String
  pattern : PatternStr := .empty
  actionType : Option ActionType := none
  riskLevel : String := "medium"
  message : String := ""
  requiresConfirmation : Bool := true
  regex : Bool := false
  condition : Option (Ctx → Bool) := none
  weight : ℚ := 1.0

structure SecurityEvent where
  timestamp : String
  action : ActionType
  target : String
  riskAssessment : RiskAssessment
  context : Ctx
  confirmed : Bool := false
  userDecision : Option String := none
  confidence : ℚ := 0.0

/-! ### `context_analyzer.py` -/

/-- `ContextAnalyzer._load_keyword_patterns`. -/
def keywordPatterns : List (String × List String) :=
  [("payment", ["купить", "оплатить", "цена", "стоимость", "чек", "checkout", "buy", "purchase", "cart", "корзин", "оплат"]),
   ("login", ["войти", "вход", "логин", "sign in", "log in", "авторизация", "account", "аккаунт"]),
   ("registration", ["регистрация", "зарегистрироваться", "sign up", "register", "создать аккаунт"]),
   ("social", ["пост", "публикация", "поделиться", "share", "comment", "комментарий", "like", "лайк", "репост"]),
   ("delete", ["удалить", "удаление", "стереть", "очистить", "delete", "remove", "clear", "отменить", "отмена"]),
   ("download", ["скачать", "загрузить", "download", "upload", "файл", "документ"]),
   ("legal", ["соглашение", "условия", "правила", "terms", "agreement", "policy", "политика"]),
   ("contact", ["контакты", "обратная связь", "contact", "support", "поддержка"]),
   ("search", ["поиск", "найти", "search", "find", "искать"]),
   ("navigation", ["главная", "home", "назад", "back", "вперед", "forward", "меню", "menu"]),
   ("settings", ["настройки", "settings", "профиль", "profile", "аккаунт", "account"])]

/-- `ContextAnalyzer._load_domain_categories`. -/
def domainCategories : List (String × List String) :=
  [("social", ["facebook.com", "twitter.com", "instagram.com", "vk.com", "tiktok.com", "linkedin.com"]),
   ("shopping", ["amazon.com", "aliexpress.com", "ebay.com", "wildberries.ru", "ozon.ru", "yandex.market"]),
   ("banking", ["sberbank.ru", "tinkoff.ru", "alfabank.ru", "vtb.ru", "raiffeisen.ru", "gazprombank.ru"]),
   ("email", ["gmail.com", "mail.ru", "yandex.ru", "outlook.com", "yahoo.com", "rambler.ru"]),
   ("government", ["gov.ru", "gosuslugi.ru", "nalog.ru", "pfr.gov.ru", "mkgu.mos.ru"]),
   ("search", ["google.com", "yandex.ru", "bing.com", "duckduckgo.com"])]

/-- Suffix of a character list after the first occurrence of `nd`, if any. -/
def afterSub (nd : List Char) : List Char → Option (List Char)
  | [] => if nd.isEmpty then some [] else none
  | c :: t => if nd.isPrefixOf (c :: t) then some ((c :: t).drop nd.length)
              else afterSub nd t

/-- `utils.extract_domain` via `urlparse(url).netloc`, modelled for URLs of
the `scheme://host/...` shape that the repository produces: the text after
the first `//` up to the next `/`, `?` or `#` (empty when there is no `//`). -/
def extractDomain (url : String) : String :=
  match afterSub "//".data url.data with
  | some rest => ⟨rest.takeWhile (fun c => c ≠ '/' && c ≠ '?' && c ≠ '#')⟩
  | none => ""

/-- `utils.is_external_domain`. -/
def isExternalDomain (currentUrl targetUrl : String) : Bool :=
  let cd := extractDomain currentUrl
  let td := extractDomain targetUrl
  if cd = "" || td = "" then false else td ≠ cd

/-- `utils.is_suspicious_domain`. -/
def isSuspiciousDomain (domain : String) : Bool :=
  let dl := lowerStr domain
  ([".tk", ".ml", ".ga", ".cf", ".gq", ".xyz", ".top", ".club"].any (fun t => strEnds t dl)) ||
  (["phishing", "malware", "scam", "hack", "exploit"].any (fun k => strIn k dl))

/-- `ContextAnalyzer._analyze_page_type`. -/
def pageTypeCtx (url : String) : Ctx :=
  if url = "" then []
  else
    let ul := lowerStr url
    [("is_login_page", .b (["login", "signin", "auth", "вход", "войти", "account"].any (fun w => strIn w ul))),
     ("is_payment_page", .b (["checkout", "payment", "pay", "cart", "корзин", "оплат", "order"].any (fun w => strIn w ul))),
     ("is_registration_page", .b (["register", "signup", "регистрация", "create.account"].any (fun w => strIn w ul))),
     ("is_settings_page", .b (["settings", "настройки", "profile", "профиль", "account"].any (fun w => strIn w ul))),
     ("is_admin_page", .b (["admin", "админ", "dashboard", "панель", "control"].any (fun w => strIn w ul))),
     ("is_social_page", .b (["facebook", "twitter", "vk", "instagram", "tiktok", "social"].any (fun w => strIn w ul))),
     ("is_search_page", .b (["search", "поиск", "google", "yandex", "bing"].any (fun w => strIn w ul))),
     ("is_email_page", .b (["mail", "email", "почта", "gmail", "outlook"].any (fun w => strIn w ul)))]

/-- `ContextAnalyzer._analyze_domain` (first matching category wins). -/
def domainCtx (url : String) : Ctx :=
  let domain := extractDomain url
  if domain = "" then []
  else
    let dl := lowerStr domain
    let cat := match domainCategories.find? (fun c => c.2.any (fun p => strEnds (lowerStr p) dl)) with
      | some c => c.1
      | none => "other"
    [("domain", .s domain), ("domain_category", .s cat),
     ("is_suspicious_domain", .b (isSuspiciousDomain domain)),
     ("is_trusted_domain", .b (cat = "banking" || cat = "government" || cat = "email"))]

/-- `ContextAnalyzer._analyze_navigation_url`. -/
def navUrlCtx (targetUrl currentUrl : String) : Ctx :=
  [("is_external_domain", .b (isExternalDomain currentUrl targetUrl)),
   ("is_https", .b (strStarts "https://" targetUrl)),
   ("is_http", .b (strStarts "http://" targetUrl)),
   ("is_suspicious_url", .b (isSuspiciousDomain (extractDomain targetUrl)))]

/-- `ContextAnalyzer._analyze_keywords` (an entry only appears when true). -/
def keywordCtx (text : String) : Ctx :=
  if text = "" then []
  else
    let tl := lowerStr text
    keywordPatterns.foldl (fun acc cat =>
      if cat.2.any (fun kw => strIn kw tl) then acc ++ [("contains_" ++ cat.1, .b true)]
      else acc) []

/-- `ContextAnalyzer._analyze_sequence` (histories that are not lists do not
occur in the repository and are treated as empty). -/
def seqCtx (history : JVal) (_currentAction : ActionType) (_target : String) : Ctx :=
  match history with
  | .arr l =>
      if l.isEmpty then []
      else
        let recent := l.drop (l.length - 5)
        let getS := fun (h : JVal) (k : String) =>
          match h with | .obj kvs => jgetS kvs k "" | _ => ""
        let actionTypes := recent.map (fun h => getS h "action_type")
        let targets := recent.map (fun h => lowerStr (getS h "target"))
        let isLoginFlow := actionTypes.contains ActionType.typeEmail.value &&
          actionTypes.contains ActionType.typePassword.value
        let isPaymentFlow := targets.any (fun t => strIn "payment" t) ||
          targets.any (fun t => strIn "купить" t) || targets.any (fun t => strIn "оплатить" t)
        let isRegistrationFlow := targets.any (fun t => strIn "регистрация" t) ||
          targets.any (fun t => strIn "register" t)
        let isFormFilling := 2 ≤ (actionTypes.filter (fun a => strStarts "TYPE_" a)).length
        [("is_login_flow", .b isLoginFlow), ("is_payment_flow", .b isPaymentFlow),
         ("is_registration_flow", .b isRegistrationFlow), ("is_form_filling", .b isFormFilling),
         ("recent_action_types", .arr (actionTypes.map .s)),
         ("recent_targets", .arr ((targets.take 3).map .s))]
  | _ => []

/-- `ContextAnalyzer._analyze_action_context`. -/
def actionCtxOf (a : ActionType) (_target : String) (ctx : Ctx) : Ctx :=
  (if a = .typePassword && jgetB ctx "is_login_page" then
    [("is_password_in_login_context", JVal.b true)] else []) ++
  (if a = .payment && jgetB ctx "is_payment_page" then
    [("is_payment_in_checkout_context", JVal.b true)] else []) ++
  (if a = .delete && jgetB ctx "is_settings_page" then
    [("is_delete_in_settings_context", JVal.b true)] else []) ++
  (if a = .socialAction && jgetB ctx "is_social_page" then
    [("is_social_action_in_context", JVal.b true)] else [])

/-- Total number of matches inside a `detected_patterns` object. -/
def detectedTotal : JVal → Nat
  | .obj cats => (cats.map (fun c =>
      match c.2 with
      | .obj ps => (ps.map (fun p => match p.2 with | .arr m => m.length | _ => 0)).sum
      | _ => 0)).sum
  | _ => 0

/-- `ContextAnalyzer._calculate_confidence`. -/
def calcConfidence (ctx : Ctx) : ℚ :=
  let factors : List ℚ :=
    (if jgetB ctx "detected_patterns" then
      let total := detectedTotal (match jget ctx "detected_patterns" with
        | some v => v | none => .obj [])
      [qmin ((total : ℚ) * 0.2) 1] else []) ++
    (if jgetB ctx "is_login_page" && jgetB ctx "contains_login" then [(0.8 : ℚ)] else []) ++
    (if jgetB ctx "is_payment_page" && jgetB ctx "contains_payment" then [(0.9 : ℚ)] else []) ++
    (if jgetB ctx "is_login_flow" then [(0.85 : ℚ)] else []) ++
    (if jgetB ctx "is_payment_flow" then [(0.95 : ℚ)] else []) ++
    (if jgetB ctx "is_trusted_domain" then [(0.7 : ℚ)] else [])
  if factors.isEmpty then 0.3 else factors.sum / factors.length

/-- `d.get(k, default)` truthiness with an explicit (possibly `True`) default. -/
def jgetBd (d : Ctx) (k : String) (dflt : Bool) : Bool :=
  match jget d k with
  | some v => v.truthy
  | none => dflt

/-- `ContextAnalyzer._generate_recommendations`. -/
def genRecs (ctx : Ctx) : List String :=
  (if jgetB ctx "contains_passwords" then ["🔐 Обнаружен ввод пароля - будьте осторожны"] else []) ++
  (if jgetB ctx "contains_financial" then ["💰 Обнаружены финансовые данные - проверьте безопасность"] else []) ++
  (if jgetB ctx "is_external_domain" then ["🌍 Переход на внешний домен - убедитесь в его надежности"] else []) ++
  (if jgetB ctx "is_suspicious_domain" then ["🚫 Подозрительный домен - рекомендуется отменить переход"] else []) ++
  (if !(jgetBd ctx "is_https" true) && jgetB ctx "contains_payment" then
    ["🔓 Оплата через HTTP - небезопасно, используйте HTTPS"] else [])

/-- `pattern_analysis.get("patterns", {})`. -/
def paPatterns : JVal → JVal
  | .obj kvs => (match jget kvs "patterns" with | some v => v | none => .obj [])
  | _ => .obj []

/-- `ContextAnalyzer.analyze`: the nine enrichment steps, in order. -/
def analyzeCtx (a : ActionType) (target : String) (rawCtx : Ctx) : Ctx :=
  let pa := extractSensitiveData target
  let ctx := jupd rawCtx [("pattern_analysis", pa), ("detected_patterns", paPatterns pa)]
  let currentUrl := jgetS ctx "current_url" ""
  let ctx := if currentUrl ≠ "" then jupd ctx (pageTypeCtx currentUrl) else ctx
  let ctx := if currentUrl ≠ "" then jupd ctx (domainCtx currentUrl) else ctx
  let ctx :=
    if a = .navigate || a = .navigateExternal || a = .navigateSuspicious then
      let targetUrl := jgetS ctx "target_url" target
      if targetUrl ≠ "" then jupd ctx (navUrlCtx targetUrl currentUrl) else ctx
    else ctx
  let ctx := jupd ctx (keywordCtx target)
  let ctx :=
    if jhas ctx "recent_history" then
      jupd ctx (seqCtx (match jget ctx "recent_history" with
        | some v => v | none => .arr []) a target)
    else ctx
  let ctx := jupd ctx (actionCtxOf a target ctx)
  let ctx := jset ctx "confidence" (.q (calcConfidence ctx))
  jset ctx "recommendations" (.arr ((genRecs ctx).map .s))

/-! ### `utils.generate_action_hash` and its module-level cache -/

/-- `hashlib.md5(s.encode()).hexdigest()[:8]`, modelled injectively. -/
def md5_8 (s : String) : String := s

/-- `hashlib.md5(s.encode()).hexdigest()[:16]`, modelled injectively. -/
def md5_16 (s : String) : String := s

/-- `_cache_ttl = timedelta(minutes=10)` (times are rational minutes). -/
def cacheTTL : ℚ := 10

/-- The `_action_hash_cache` module state: key, cached hash, timestamp. -/
abbrev HashCache := List (String × String × ℚ)

def cacheKeyOf (a : ActionType) (target : String) (ctx : Ctx) : String :=
  a.value ++ ":" ++ target ++ ":" ++ jgetS ctx "current_url" ""

/-- The digest a fresh (uncached) call computes from its own arguments. -/
def actionHashData (a : ActionType) (target : String) (ctx : Ctx) : String :=
  a.value ++ ":" ++ target ++ ":" ++ jgetS ctx "current_url" "" ++ ":" ++
    md5_8 (encCtx ctx)

def freshActionHash (a : ActionType) (target : String) (ctx : Ctx) : String :=
  md5_16 (actionHashData a target ctx)

def cacheSet (c : HashCache) (k : String) (v : String × ℚ) : HashCache :=
  if c.any (fun e => e.1 = k) then c.map (fun e => if e.1 = k then (k, v) else e)
  else c ++ [(k, v)]

/-- `utils._clean_hash_cache`: drop entries strictly older than the TTL. -/
def cleanHashCache (now : ℚ) (c : HashCache) : HashCache :=
  c.filter (fun e => !(cacheTTL < now - e.2.2))

/-- `utils.generate_action_hash`: consult the `(kind, target, current_url)`
cache first; on a hit within the TTL return the cached hash unchanged, else
compute the digest, store it, and clean expired entries. -/
def generateActionHash (now : ℚ) (a : ActionType) (target : String) (ctx : Ctx)
    (cache : HashCache) : String × HashCache :=
  let key := cacheKeyOf a target ctx
  match cache.find? (fun e => e.1 = key) with
  | some e =>
      if now - e.2.2 < cacheTTL then (e.2.1, cache)
      else
        let h := freshActionHash a target ctx
        (h, cleanHashCache now (cacheSet cache key (h, now)))
  | none =>
      let h := freshActionHash a target ctx
      (h, cleanHashCache now (cacheSet cache key (h, now)))

/-! ### `rule_engine.py` -/

def paymentClickRE : RE :=
  reAltLits ["купить", "оплатить", "покупка", "заказ", "checkout", "buy now",
    "add to cart", "оформить", "заказать", "корзин", "basket"]

def cardDataRE : RE :=
  reAlts [litCI "карт", litCI "card", gapRE "номер" "карт", litCI "cvv", litCI "cvc",
    gapRE "срок" "действия", litCI "expir", litCI "valid", litCI "пластик"]

def passwordInputRE : RE :=
  reAlts [litCI "пароль", litCI "password", litCI "pwd", litCI "pass", litCI "ключ",
    litCI "key", litCI "секрет", litCI "secret", litCI "pin", gapRE "код" "доступ"]

def emailInputRE : RE :=
  reAltLits ["@", "email", "емейл", "почта", "e-mail", "mail.", "gmail.", "yandex."]

def externalNavRE : RE :=
  reAlts [reSeq [litCI "http", reOpt (chCI 's'), litCI "://"], litCI "www.",
    litCI ".com", litCI ".ru", litCI ".org", litCI ".net"]

def nonHttpsNavRE : RE := .seq .bos (litCI "http://")

/-- `RuleEngine._load_default_rules`, in source order. -/
def defaultRules : List SecurityRule :=
  [{ name := "payment_click",
     pattern := .valid "(купить|оплатить|покупка|заказ|checkout|buy now|add to cart|оформить|заказать|корзин|basket)" paymentClickRE,
     actionType := some .clickButton, riskLevel := "high",
     message := "💰 Кнопка оплаты/покупки", regex := true, weight := 2.0 },
   { name := "card_data_input",
     pattern := .valid "(карт|card|номер.*карт|cvv|cvc|срок.*действия|expir|valid|пластик)" cardDataRE,
     actionType := some .type, riskLevel := "critical",
     message := "💳 Ввод данных карты", regex := true, weight := 3.0 },
   { name := "password_input",
     pattern := .valid "(пароль|password|pwd|pass|ключ|key|секрет|secret|pin|код.*доступ)" passwordInputRE,
     actionType := some .type, riskLevel := "critical",
     message := "🔐 Ввод пароля/ключа", regex := true, weight := 3.0 },
   { name := "email_input",
     pattern := .valid "(@|email|емейл|почта|e-mail|mail\\.|gmail\\.|yandex\\.)" emailInputRE,
     actionType := some .type, riskLevel := "medium",
     message := "📧 Ввод email", regex := true, weight := 1.5 },
   { name := "external_navigation",
     pattern := .valid "(https?://|www\\.|\\.com|\\.ru|\\.org|\\.net)" externalNavRE,
     actionType := some .navigate, riskLevel := "low",
     message := "🌍 Навигация на внешний ресурс", regex := true, weight := 1.0 },
   { name := "non_https_navigation",
     pattern := .valid "^http://" nonHttpsNavRE,
     actionType := some .navigate, riskLevel := "medium",
     message := "🔓 Навигация по HTTP (небезопасно)", regex := true, weight := 1.5 },
   { name := "context_login_flow_password",
     actionType := some .typePassword, riskLevel := "high",
     message := "🔐 Ввод пароля в контексте логина",
     condition := some (fun ctx => jgetB ctx "is_login_page"), weight := 2.5 },
   { name := "context_payment_flow",
     actionType := some .payment, riskLevel := "critical",
     message := "💸 Оплата в контексте checkout",
     condition := some (fun ctx => jgetB ctx "is_payment_page"), weight := 3.0 }]

/-- `re.search(rule.pattern, target, re.IGNORECASE)` on a stored pattern
string; a malformed pattern raises `re.error`. -/
def reSearchP : PatternStr → String → Except String Bool
  | .empty, _ => .ok true
  | .valid _ r, t => .ok (reSearch r t)
  | .malformed raw, _ => .error ("re.error: " ++ raw)

/-- The risk-level multiplier table in `evaluate_rules`. -/
def ruleMult (lvl : String) : ℚ :=
  if lvl = "low" then 0.3
  else if lvl = "medium" then 0.6
  else if lvl = "high" then 0.9
  else if lvl = "critical" then 1.0
  else 0.5

def levelOfScore (q : ℚ) : String :=
  if 80 ≤ q then "critical"
  else if 60 ≤ q then "high"
  else if 30 ≤ q then "medium"
  else "low"

/-- The per-rule body of the `for rule in self.rules` loop: `none` when the
rule is skipped, `some true` when it triggers; a `re.error` from a malformed
pattern propagates (there is no `try` in `evaluate_rules`). -/
def ruleTriggerStep (a : ActionType) (target : String) (ctx : Ctx)
    (rule : SecurityRule) : Except String Bool :=
  if (match rule.actionType with | some at_ => decide (at_ ≠ a) | none => false) then .ok false
  else if a = .navigate || a = .navigateExternal then .ok false
  else if (match rule.condition with | some c => !c ctx | none => false) then .ok false
  else if rule.pattern.truthy then
    if rule.regex then reSearchP rule.pattern target
    else .ok (strIn (lowerStr rule.pattern.raw) (lowerStr target))
  else if rule.condition.isSome then .ok true
  else .ok false

/-- The triggered-rule collection phase of `RuleEngine.evaluate_rules`. -/
def collectTriggered (a : ActionType) (target : String) (ctx : Ctx) :
    List SecurityRule → Except String (List SecurityRule)
  | [] => .ok []
  | r :: rest => do
      let hit ← ruleTriggerStep a target ctx r
      let t ← collectTriggered a target ctx rest
      .ok (if hit then r :: t else t)

/-- The scoring tail of `evaluate_rules`: weight the triggered rules,
normalise to 0-100, derive the level, and force navigation to 5/"low". -/
def ruleRiskFromTriggered (a : ActionType) (ctx : Ctx) (trig : List SecurityRule) :
    RiskAssessment :=
  let riskScore := (trig.map (fun r => r.weight * ruleMult r.riskLevel)).sum
  let maxPossible := (trig.map (fun r => r.weight)).sum
  let normalized : ℚ := if 0 < maxPossible then riskScore / maxPossible * 100 else 0
  let lvl := levelOfScore normalized
  let normalized := if a = .navigate || a = .navigateExternal then (5 : ℚ) else normalized
  let lvl := if a = .navigate || a = .navigateExternal then "low" else lvl
  { score := normalized, level := lvl, triggeredRules := trig.map (fun r => r.name),
    recommendations := [], confidence := jgetQ ctx "confidence" 0.5 }

/-- `RuleEngine.evaluate_rules`: triggered rules plus the rule-side risk
assessment. -/
def evaluateRules (rules : List SecurityRule) (a : ActionType) (target : String)
    (ctx : Ctx) : Except String (List SecurityRule × RiskAssessment) :=
  match collectTriggered a target ctx rules with
  | .error e => .error e
  | .ok trig => .ok (trig, ruleRiskFromTriggered a ctx trig)

/-! ### `risk_assessor.py` -/

/-- `RiskAssessor._load_risk_weights()["action_type"]`. -/
def actionTypeWeights : List (String × ℚ) :=
  [("type", 0.5), ("type_password", 80.0), ("type_email", 2.0), ("type_phone", 1.5),
   ("type_card", 89.0), ("type_personal", 2.0), ("click", 1.0), ("click_button", 1.0),
   ("click_link", 0.8), ("navigate", 0.2), ("navigate_external", 0.3),
   ("navigate_suspicious", 1.0), ("form_submit", 1.5), ("payment", 60.0),
   ("delete", 25.0), ("social_action", 1.5), ("legal_action", 1.5), ("scroll", 0.1),
   ("analyze", 0.0)]

/-- `RiskAssessor._load_risk_weights()["context"]`, in source order. -/
def contextWeights : List (String × ℚ) :=
  [("is_payment_page", 1.3), ("is_login_page", 1.1), ("is_registration_page", 1.2),
   ("is_settings_page", 1.1), ("is_admin_page", 1.5), ("is_social_page", 1.1),
   ("is_search_page", 0.9), ("is_email_page", 1.1), ("contains_financial", 1.5),
   ("contains_passwords", 1.8), ("contains_personal_data", 1.3),
   ("contains_contact_info", 1.1), ("is_external_domain", 1.0),
   ("is_suspicious_domain", 1.2), ("is_trusted_domain", 0.9), ("is_https", 0.9),
   ("is_http", 1.1), ("is_login_flow", 1.3), ("is_payment_flow", 1.8),
   ("is_registration_flow", 1.3), ("is_form_filling", 1.2),
   ("is_password_in_login_context", 1.4), ("is_payment_in_checkout_context", 1.6),
   ("is_delete_in_settings_context", 1.7), ("is_social_action_in_context", 1.1),
   ("confidence_high", 1.1), ("confidence_low", 0.9)]

def wLookup (l : List (String × ℚ)) (k : String) (dflt : ℚ) : ℚ :=
  match l.find? (fun kv => kv.1 = k) with
  | some kv => kv.2
  | none => dflt

/-- `RiskAssessor.assess_risk`. -/
def assessRisk (a : ActionType) (_target : String) (ctx : Ctx) : RiskAssessment :=
  let actionKey := lowerStr a.value
  let baseRisk := wLookup actionTypeWeights actionKey 1.0
  let isNavigation := actionKey = "navigate" || actionKey = "navigate_external" ||
    actionKey = "navigate_suspicious"
  let step := fun (acc : ℚ × List String) (kv : String × ℚ) =>
    if jgetB ctx kv.1 then
      if isNavigation then
        if kv.1 = "is_suspicious_domain" || kv.1 = "is_http" || kv.1 = "is_https" then
          (acc.1 * kv.2, acc.2 ++ ["context_" ++ kv.1])
        else acc
      else (acc.1 * kv.2, acc.2 ++ ["context_" ++ kv.1])
    else acc
  let folded := contextWeights.foldl step (1.0, [])
  let contextModifier := folded.1
  let triggered := folded.2
  let confidence := jgetQ ctx "confidence" 0.5
  let confidenceModifier :=
    if 0.7 < confidence then wLookup contextWeights "confidence_high" 1.0
    else if confidence < 0.3 then wLookup contextWeights "confidence_low" 1.0
    else 1.0
  let totalRisk := baseRisk * contextModifier * confidenceModifier
  let normalized := qmin (totalRisk * 20) 100
  let normalized := if isNavigation then qmin normalized 25 else normalized
  let riskLevel := levelOfScore normalized
  let recs :=
    (if riskLevel = "high" || riskLevel = "critical" then
      ["⚠️ Требуется подтверждение пользователя"] else []) ++
    (if jgetB ctx "contains_passwords" then
      ["🔐 Пароли никогда не должны храниться в логах"] else []) ++
    (if jgetB ctx "contains_financial" then
      ["💰 Финансовые операции требуют особого внимания"] else []) ++
    (if jgetB ctx "is_suspicious_domain" then
      ["🚫 Подозрительный домен, рекомендуется отмена"] else []) ++
    (if !(jgetBd ctx "is_https" true) && 10 < baseRisk then
      ["🔓 Действие выполняется по HTTP (небезопасно)"] else [])
  { score := normalized, level := riskLevel, triggeredRules := triggered,
    recommendations := recs, confidence := confidence }

/-! ### `audit_logger.py` -/

structure AuditStats where
  totalEvents : ℕ := 0
  blockedActions : ℕ := 0
  confirmedActions : ℕ := 0
  criticalEvents : ℕ := 0
  highEvents : ℕ := 0
  mediumEvents : ℕ := 0
  lowEvents : ℕ := 0
deriving DecidableEq

structure AuditState where
  events : List SecurityEvent := []
  maxEvents : ℕ := 1000
  stats : AuditStats := {}

/-- Python `lst[-n:]` (note `lst[-0:]` is the whole list). -/
def pyLastN (n : Nat) (l : List SecurityEvent) : List SecurityEvent :=
  if n = 0 then l else l.drop (l.length - n)

/-- `AuditLogger.log_event`: append, bump the counters, truncate. -/
def logEvent (st : AuditState) (e : SecurityEvent) : AuditState :=
  let events := st.events ++ [e]
  let s0 := st.stats
  let s1 := { s0 with totalEvents := s0.totalEvents + 1 }
  let s2 :=
    if e.riskAssessment.level = "critical" then { s1 with criticalEvents := s1.criticalEvents + 1 }
    else if e.riskAssessment.level = "high" then { s1 with highEvents := s1.highEvents + 1 }
    else if e.riskAssessment.level = "medium" then { s1 with mediumEvents := s1.mediumEvents + 1 }
    else { s1 with lowEvents := s1.lowEvents + 1 }
  let s3 :=
    if !e.confirmed then { s2 with blockedActions := s2.blockedActions + 1 }
    else { s2 with confirmedActions := s2.confirmedActions + 1 }
  let events := if st.maxEvents < events.length then pyLastN st.maxEvents events else events
  { st with events := events, stats := s3 }

/-- `AuditLogger.log_action`: build the event (target truncated to 200,
decision recorded as auto_allowed / auto_blocked) and log it. -/
def logAction (st : AuditState) (nowIso : String) (a : ActionType) (target : String)
    (ra : RiskAssessment) (allowed : Bool) (ctx : Ctx) : AuditState :=
  logEvent st
    { timestamp := nowIso, action := a, target := strTake 200 target,
      riskAssessment := ra, context := ctx, confirmed := allowed,
      userDecision := some (if allowed then "auto_allowed" else "auto_blocked"),
      confidence := ra.confidence }

/-! ### `confirmation_requester.py` -/

/-- `ConfirmationRequester._get_user_decision`: consume typed responses
until a decisive one; `d`, blank and unrecognised responses re-prompt, and
exhausting the input behaves like `EOFError` (`interrupted`). -/
def getUserDecision : List String → Bool × String
  | [] => (false, "interrupted")
  | r :: rest =>
      let response := strStrip (lowerStr r)
      if response = "d" then getUserDecision rest
      else if response = "y" then (true, "approved")
      else if response = "a" then (true, "approved_all")
      else if response = "n" then (false, "blocked")
      else if response = "q" then (false, "task_aborted")
      else getUserDecision rest

structure GateResult where
  allowed : Bool
  reason : String
  /-- Instrumentation: whether `_get_user_decision` was actually consulted
  (false on the `auto_confirm_hashes` fast path). -/
  prompted : Bool
  cache : HashCache

/-- `ConfirmationRequester.request_confirmation` (message formatting and the
details display are print-only and not modelled).  It recomputes the action
hash through the shared module-level cache. -/
def requestConfirmation (autoConfirm : List String) (now : ℚ) (a : ActionType)
    (target : String) (ctx : Ctx) (cache : HashCache) (inputs : List String) : GateResult :=
  let hc := generateActionHash now a target ctx cache
  if autoConfirm.contains hc.1 then
    { allowed := true, reason := "previously_confirmed", prompted := false, cache := hc.2 }
  else
    let d := getUserDecision inputs
    { allowed := d.1, reason := d.2, prompted := true, cache := hc.2 }

/-! ### `security_layer.py` -/

structure SecState where
  securityLevel : SecurityLevel
  rules : List SecurityRule := defaultRules
  confirmedActions : List String := []
  audit : AuditState := {}
  autoConfirm : List String := []
  hashCache : HashCache := []
  history : List Ctx := []
  /-- Instrumentation: the stream of events delivered to the registered
  confirmation callbacks by `_notify_callbacks`. -/
  notified : List SecurityEvent := []

/-- `SecurityLayer._add_to_history` (timestamp supplied explicitly). -/
def addToHistory (h : List Ctx) (nowIso : String) (a : ActionType) (target : String)
    (rawCtx : Ctx) : List Ctx :=
  let entry : Ctx :=
    [("action_type", .s a.value), ("target", .s (strTake 200 target)),
     ("url", .s (jgetS rawCtx "current_url" "")), ("timestamp", .s nowIso)]
  let h' := h ++ [entry]
  if 100 < h'.length then h'.drop (h'.length - 100) else h'

/-- The risk-fusion step of `check_action` (source lines 90-100). -/
def fuseAssess (ruleRisk riskAssess : RiskAssessment) : RiskAssessment :=
  { score := max ruleRisk.score riskAssess.score,
    level := if riskAssess.score < ruleRisk.score then ruleRisk.level else riskAssess.level,
    triggeredRules := (ruleRisk.triggeredRules ++ riskAssess.triggeredRules).eraseDups,
    recommendations := riskAssess.recommendations,
    confidence := riskAssess.confidence }

/-- The assessment returned by the memoized (`previously_confirmed`) path. -/
def prevConfirmedAssessment : RiskAssessment :=
  { score := 0, level := "low", triggeredRules := ["previously_confirmed"],
    recommendations := [], confidence := 1.0 }

structure CheckResult where
  allowed : Bool
  assessment : RiskAssessment
  state : SecState
  /-- Instrumentation: whether `request_confirmation` was invoked. -/
  usedGate : Bool := false
  /-- Instrumentation: whether the user was actually prompted. -/
  prompted : Bool := false
  /-- Instrumentation: the reason string returned by the gate, if invoked. -/
  gateReason : Option String := none

/-- The `SecurityEvent` built for the confirmation callbacks. -/
def callbackEvent (ctx : Ctx) (a : ActionType) (target : String)
    (finalRA : RiskAssessment) (allowed : Bool) (reason : String) : SecurityEvent :=
  { timestamp := jgetS ctx "timestamp" "", action := a, target := target,
    riskAssessment := finalRA, context := ctx, confirmed := allowed,
    userDecision := some reason, confidence := finalRA.confidence }

/-- The non-memoized tail of `check_action` (everything after a successful
rule evaluation), as a pure function of the rule-side assessment. -/
def checkActionCore (s : SecState) (a : ActionType) (target : String) (rawCtx : Ctx)
    (inputs : List String) (now : ℚ) (nowIso : String) (ruleRisk : RiskAssessment) :
    CheckResult :=
  let history' := addToHistory s.history nowIso a target rawCtx
  let ctx := analyzeCtx a target rawCtx
  let hc := generateActionHash now a target ctx s.hashCache
  let actionHash := hc.1
  let cache1 := hc.2
  let riskAssess := assessRisk a target ctx
  let finalRA := fuseAssess ruleRisk riskAssess
  if 20 < finalRA.score then
    let rc := requestConfirmation s.autoConfirm now a target ctx cache1 inputs
    let confirmed' :=
      if rc.allowed && rc.reason = "approved_all" then s.confirmedActions ++ [actionHash]
      else s.confirmedActions
    let audit' := logAction s.audit nowIso a target finalRA rc.allowed ctx
    let event := callbackEvent ctx a target finalRA rc.allowed rc.reason
    let st' := { s with history := history', hashCache := rc.cache, confirmedActions := confirmed', audit := audit', notified := s.notified ++ [event] }
    { allowed := rc.allowed, assessment := finalRA, state := st',
      usedGate := true, prompted := rc.prompted, gateReason := some rc.reason }
  else
    match s.securityLevel with
    | .low =>
        let st' := { s with history := history', hashCache := cache1,
                            audit := logAction s.audit nowIso a target finalRA true ctx }
        { allowed := true, assessment := finalRA, state := st' }
    | .medium =>
        if a = .navigateSuspicious &&
            (finalRA.level = "medium" || finalRA.level = "high" ||
             finalRA.level = "critical") then
          let rc := requestConfirmation s.autoConfirm now a target ctx cache1 inputs
          let confirmed' :=
            if rc.allowed && rc.reason = "approved_all" then
              s.confirmedActions ++ [actionHash]
            else s.confirmedActions
          let audit' := logAction s.audit nowIso a target finalRA rc.allowed ctx
          let event := callbackEvent ctx a target finalRA rc.allowed rc.reason
          let st' := { s with history := history', hashCache := rc.cache, confirmedActions := confirmed', audit := audit', notified := s.notified ++ [event] }
          { allowed := rc.allowed, assessment := finalRA, state := st',
            usedGate := true, prompted := rc.prompted, gateReason := some rc.reason }
        else
          let st' := { s with history := history', hashCache := cache1,
                              audit := logAction s.audit nowIso a target finalRA true ctx }
          { allowed := true, assessment := finalRA, state := st' }
    | .high =>
        if finalRA.level = "high" || finalRA.level = "critical" then
          let st' := { s with history := history', hashCache := cache1,
                              audit := logAction s.audit nowIso a target finalRA false ctx }
          { allowed := false, assessment := finalRA, state := st' }
        else if finalRA.level = "medium" then
          let rc := requestConfirmation s.autoConfirm now a target ctx cache1 inputs
          let st' := { s with history := history', hashCache := rc.cache,
                              audit := logAction s.audit nowIso a target finalRA rc.allowed ctx }
          { allowed := rc.allowed, assessment := finalRA, state := st',
            usedGate := true, prompted := rc.prompted, gateReason := some rc.reason }
        else
          let st' := { s with history := history', hashCache := cache1,
                              audit := logAction s.audit nowIso a target finalRA true ctx }
          { allowed := true, assessment := finalRA, state := st' }

/-- The result of the memoized (`previously_confirmed`) short-circuit. -/
def checkActionMemo (s : SecState) (a : ActionType) (target : String) (rawCtx : Ctx)
    (now : ℚ) (nowIso : String) : CheckResult :=
  let history' := addToHistory s.history nowIso a target rawCtx
  let ctx := analyzeCtx a target rawCtx
  let hc := generateActionHash now a target ctx s.hashCache
  { allowed := true, assessment := prevConfirmedAssessment,
    state := { s with history := history', hashCache := hc.2 } }

/-- `SecurityLayer.check_action`.  A `re.error` escaping `evaluate_rules`
propagates to the caller (`Except.error`); every other path returns `.ok`. -/
def checkAction (s : SecState) (a : ActionType) (target : String) (rawCtx : Ctx)
    (inputs : List String) (now : ℚ) (nowIso : String) : Except String CheckResult :=
  let ctx := analyzeCtx a target rawCtx
  let hc := generateActionHash now a target ctx s.hashCache
  if hc.1 ∈ s.confirmedActions then
    .ok (checkActionMemo s a target rawCtx now nowIso)
  else
    match evaluateRules s.rules a target ctx with
    | .error e => .error e
    | .ok pr => .ok (checkActionCore s a target rawCtx inputs now nowIso pr.2)

/-! ### Projections on `check_action` results -/

instance : Inhabited RiskAssessment :=
  ⟨{ score := 0, level := "low", triggeredRules := [], recommendations := [] }⟩

instance : Inhabited SecState := ⟨{ securityLevel := .medium }⟩

instance : Inhabited CheckResult :=
  ⟨{ allowed := false, assessment := default, state := default }⟩

def caOk : Except String CheckResult → Bool
  | .ok _ => true
  | .error _ => false

def caGet : Except String CheckResult → CheckResult
  | .ok c => c
  | .error _ => default

def caAllowed (r : Except String CheckResult) : Bool := (caGet r).allowed
def caAssessment (r : Except String CheckResult) : RiskAssessment := (caGet r).assessment
def caScore (r : Except String CheckResult) : ℚ := (caGet r).assessment.score
def caLevel (r : Except String CheckResult) : String := (caGet r).assessment.level
def caUsedGate (r : Except String CheckResult) : Bool := (caGet r).usedGate
def caPrompted (r : Except String CheckResult) : Bool := (caGet r).prompted
def caGateReason (r : Except String CheckResult) : Option String := (caGet r).gateReason
def caState (r : Except String CheckResult) : SecState := (caGet r).state

/-- The enriched context `check_action` works with. -/
def enrichOf (a : ActionType) (target : String) (rawCtx : Ctx) : Ctx :=
  analyzeCtx a target rawCtx

/-- The action hash computed at step 3 of `check_action`. -/
def layerHashOf (s : SecState) (now : ℚ) (a : ActionType) (target : String)
    (rawCtx : Ctx) : String :=
  (generateActionHash now a target (enrichOf a target rawCtx) s.hashCache).1

/-- The rule-engine half of the fusion (on the non-exceptional path). -/
def ruleRiskOf (rules : List SecurityRule) (a : ActionType) (target : String)
    (rawCtx : Ctx) : RiskAssessment :=
  match evaluateRules rules a target (enrichOf a target rawCtx) with
  | .ok pr => pr.2
  | .error _ => default

/-- The risk-assessor half of the fusion. -/
def assessorRiskOf (a : ActionType) (target : String) (rawCtx : Ctx) : RiskAssessment :=
  assessRisk a target (enrichOf a target rawCtx)

/-- The fused assessment `check_action` computes on the non-memoized path. -/
def fusedOf (rules : List SecurityRule) (a : ActionType) (target : String)
    (rawCtx : Ctx) : RiskAssessment :=
  fuseAssess (ruleRiskOf rules a target rawCtx) (assessorRiskOf a target rawCtx)

/-- The gate invocation `check_action` performs on its confirmation paths. -/
def gateOf (s : SecState) (now : ℚ) (a : ActionType) (target : String)
    (rawCtx : Ctx) (inputs : List String) : GateResult :=
  requestConfirmation s.autoConfirm now a target (enrichOf a target rawCtx)
    (generateActionHash now a target (enrichOf a target rawCtx) s.hashCache).2 inputs

/-! ### Concrete fixtures used by the claim theorems -/

def loginRaw : Ctx := [("is_login_page", JVal.b true)]

def highState : SecState := { securityLevel := .high }

def medState : SecState := { securityLevel := .medium }

def tHash : String := layerHashOf medState 0 .type "" []

/-- A MEDIUM-level layer that has already memoized the hash of the action
(kind `type`, empty target, empty context). -/
def memoState : SecState := { securityLevel := .medium, confirmedActions := [tHash] }


/-- A rule whose pattern string does not compile (as a user may add through
`add_rule`), applicable to kind `type`. -/
def malformedRule : SecurityRule :=
  { name := "user_rule_bad", pattern := .malformed "(", actionType := some .type,
    riskLevel := "low", regex := true }

/-- A well-formed user rule, applicable to kind `type`. -/
def benignRule : SecurityRule :=
  { name := "user_rule_ok", pattern := .valid "x" (litCI "x"), actionType := some .type,
    riskLevel := "low", regex := true }

/-- The `contains_passwords` flag nested inside the stored
`pattern_analysis["context"]` object. -/
def paContainsPasswords (ctx : Ctx) : Bool :=
  match jget ctx "pattern_analysis" with
  | some (.obj kvs) =>
      (match jget kvs "context" with
       | some (.obj c) => jgetB c "contains_passwords"
       | _ => false)
  | _ => false

/-- The counters computed over an entire event history, with the same
classification `log_event` uses (critical / high / medium / everything
else as low, blocked vs confirmed by the `confirmed` flag). -/
def statsOf (L : List SecurityEvent) : AuditStats :=
  { totalEvents := L.length,
    blockedActions := (L.filter (fun e => !e.confirmed)).length,
    confirmedActions := (L.filter (fun e => e.confirmed)).length,
    criticalEvents := (L.filter (fun e => e.riskAssessment.level = "critical")).length,
    highEvents := (L.filter (fun e =>
      ¬ e.riskAssessment.level = "critical" ∧ e.riskAssessment.level = "high")).length,
    mediumEvents := (L.filter (fun e =>
      ¬ e.riskAssessment.level = "critical" ∧ ¬ e.riskAssessment.level = "high" ∧
        e.riskAssessment.level = "medium")).length,
    lowEvents := (L.filter (fun e =>
      ¬ e.riskAssessment.level = "critical" ∧ ¬ e.riskAssessment.level = "high" ∧
        ¬ e.riskAssessment.level = "medium")).length }

/-- A concrete low-risk event used by the audit-logger witnesses. -/
def sampleEvent : SecurityEvent :=
  { timestamp := "", action := .click, target := "x",
    riskAssessment := { score := 0, level := "low", triggeredRules := [], recommendations := [] },
    context := [] }

/-! ### Level / score consistency lemmas -/

lemma levelOfScore_high_or_crit {q : ℚ}
    (h : levelOfScore q = "high" ∨ levelOfScore q = "critical") : 60 ≤ q := by
  unfold levelOfScore at h
  split_ifs at h with h1 h2 h3 <;> simp_all <;> linarith

lemma levelOfScore_medium {q : ℚ} (h : levelOfScore q = "medium") :
    30 ≤ q ∧ q < 60 := by
  unfold levelOfScore at h
  split_ifs at h with h1 h2 h3 <;> simp_all <;> constructor <;> linarith

lemma assessRisk_level (a : ActionType) (t : String) (ctx : Ctx) :
    (assessRisk a t ctx).level = levelOfScore (assessRisk a t ctx).score := rfl

lemma ruleRiskFromTriggered_level (a : ActionType) (ctx : Ctx)
    (trig : List SecurityRule) :
    (ruleRiskFromTriggered a ctx trig).level =
      levelOfScore (ruleRiskFromTriggered a ctx trig).score := by
  unfold ruleRiskFromTriggered
  by_cases hnav : (a = ActionType.navigate || a = ActionType.navigateExternal) = true
  · simp only [hnav, if_true]
    norm_num [levelOfScore]
  · simp only [Bool.not_eq_true] at hnav
    simp only [hnav]
    norm_num

lemma ruleRiskOf_level (rules : List SecurityRule) (a : ActionType) (t : String)
    (raw : Ctx) :
    (ruleRiskOf rules a t raw).level = levelOfScore (ruleRiskOf rules a t raw).score := by
  unfold ruleRiskOf evaluateRules
  cases collectTriggered a t (enrichOf a t raw) rules with
  | error e => norm_num [default, levelOfScore]
  | ok trig => simpa using ruleRiskFromTriggered_level a (enrichOf a t raw) trig

lemma fuseAssess_level_consistent {rr ar : RiskAssessment}
    (hr : rr.level = levelOfScore rr.score) (ha : ar.level = levelOfScore ar.score) :
    (fuseAssess rr ar).level = levelOfScore (fuseAssess rr ar).score := by
  unfold fuseAssess
  by_cases h : ar.score < rr.score
  · simp only [h, if_true]
    rw [hr, max_eq_left (le_of_lt h)]
  · simp only [h, if_false]
    rw [ha, max_eq_right (le_of_not_lt h)]

lemma fusedOf_level_consistent (rules : List SecurityRule) (a : ActionType)
    (t : String) (raw : Ctx) :
    (fusedOf rules a t raw).level = levelOfScore (fusedOf rules a t raw).score :=
  fuseAssess_level_consistent (ruleRiskOf_level rules a t raw) (assessRisk_level a t _)

/-- A fused level of high or critical forces a fused score of at least 60. -/
lemma fusedOf_high_or_crit_score (rules : List SecurityRule) (a : ActionType)
    (t : String) (raw : Ctx)
    (h : (fusedOf rules a t raw).level = "high" ∨
         (fusedOf rules a t raw).level = "critical") :
    60 ≤ (fusedOf rules a t raw).score := by
  apply levelOfScore_high_or_crit
  rwa [← fusedOf_level_consistent]

/-! ### Path lemmas for `check_action` -/

lemma checkAction_memo_eq (s : SecState) (a : ActionType) (t : String) (raw : Ctx)
    (inputs : List String) (now : ℚ) (iso : String)
    (hmem : layerHashOf s now a t raw ∈ s.confirmedActions) :
    checkAction s a t raw inputs now iso = .ok (checkActionMemo s a t raw now iso) := by
  unfold checkAction
  simp only [layerHashOf, enrichOf] at hmem
  simp only [hmem, if_true]

lemma checkAction_core_eq (s : SecState) (a : ActionType) (t : String) (raw : Ctx)
    (inputs : List String) (now : ℚ) (iso : String)
    (hmem : layerHashOf s now a t raw ∉ s.confirmedActions)
    (hok : caOk (checkAction s a t raw inputs now iso) = true) :
    checkAction s a t raw inputs now iso =
      .ok (checkActionCore s a t raw inputs now iso (ruleRiskOf s.rules a t raw)) := by
  unfold checkAction at hok ⊢
  simp only [layerHashOf, enrichOf] at hmem
  simp only [hmem, if_false] at hok ⊢
  unfold ruleRiskOf enrichOf
  cases hev : evaluateRules s.rules a t (analyzeCtx a t raw) with
  | error e => exact absurd (by simpa only [hev, caOk] using hok) Bool.false_ne_true
  | ok pr => simp only [hev]

/-- A fused score of at most 20 forces the fused level to "low". -/
lemma fusedOf_le20_low (rules : List SecurityRule) (a : ActionType) (t : String)
    (raw : Ctx) (h : ¬ 20 < (fusedOf rules a t raw).score) :
    (fusedOf rules a t raw).level = "low" := by
  rw [fusedOf_level_consistent]
  unfold levelOfScore
  split_ifs with h1 h2 h3 <;> first | rfl | linarith

/-- On the non-memoized path with a fused score above 20, `check_action`
asks the confirmation gate and returns its decision, memoizing on
"approved_all", logging the outcome and notifying the callbacks. -/
lemma checkActionCore_gt20 (s : SecState) (a : ActionType) (t : String) (raw : Ctx)
    (inputs : List String) (now : ℚ) (iso : String)
    (h : 20 < (fusedOf s.rules a t raw).score) :
    checkActionCore s a t raw inputs now iso (ruleRiskOf s.rules a t raw) =
      { allowed := (gateOf s now a t raw inputs).allowed,
        assessment := fusedOf s.rules a t raw,
        state := { s with
          history := addToHistory s.history iso a t raw,
          hashCache := (gateOf s now a t raw inputs).cache,
          confirmedActions :=
            if (gateOf s now a t raw inputs).allowed &&
                (gateOf s now a t raw inputs).reason = "approved_all" then
              s.confirmedActions ++ [layerHashOf s now a t raw]
            else s.confirmedActions,
          audit := logAction s.audit iso a t (fusedOf s.rules a t raw)
            (gateOf s now a t raw inputs).allowed (enrichOf a t raw),
          notified := s.notified ++ [callbackEvent (enrichOf a t raw) a t
            (fusedOf s.rules a t raw) (gateOf s now a t raw inputs).allowed
            (gateOf s now a t raw inputs).reason] },
        usedGate := true, prompted := (gateOf s now a t raw inputs).prompted,
        gateReason := some (gateOf s now a t raw inputs).reason } := by
  unfold checkActionCore gateOf layerHashOf
  unfold fusedOf assessorRiskOf enrichOf at h ⊢
  simp only [h, if_true]

/-- On the non-memoized path with a fused score of at most 20, every
enforcement level allows the action and just logs it: by
`fusedOf_le20_low` the level is "low", so the MEDIUM suspicious-navigation
branch and both special HIGH branches are unreachable. -/
lemma checkActionCore_le20 (s : SecState) (a : ActionType) (t : String) (raw : Ctx)
    (inputs : List String) (now : ℚ) (iso : String)
    (h : ¬ 20 < (fusedOf s.rules a t raw).score) :
    checkActionCore s a t raw inputs now iso (ruleRiskOf s.rules a t raw) =
      { allowed := true,
        assessment := fusedOf s.rules a t raw,
        state := { s with
          history := addToHistory s.history iso a t raw,
          hashCache := (generateActionHash now a t (enrichOf a t raw) s.hashCache).2,
          audit := logAction s.audit iso a t (fusedOf s.rules a t raw) true
            (enrichOf a t raw) } } := by
  have hlow := fusedOf_le20_low s.rules a t raw h
  unfold checkActionCore
  unfold fusedOf assessorRiskOf enrichOf at h hlow ⊢
  simp only [h, if_false]
  cases hsl : s.securityLevel with
  | low => rfl
  | medium =>
      rw [hlow]
      simp
  | high =>
      rw [hlow]
      simp

/-- Whatever the branch, the non-memoized result carries the fused assessment. -/
lemma checkActionCore_assessment (s : SecState) (a : ActionType) (t : String)
    (raw : Ctx) (inputs : List String) (now : ℚ) (iso : String) :
    (checkActionCore s a t raw inputs now iso (ruleRiskOf s.rules a t raw)).assessment =
      fusedOf s.rules a t raw := by
  by_cases h : 20 < (fusedOf s.rules a t raw).score
  · rw [checkActionCore_gt20 s a t raw inputs now iso h]
  · rw [checkActionCore_le20 s a t raw inputs now iso h]

/-! ### Claim C1 -/

/-- C1 (counterexample): under HIGH enforcement, the action
(kind TypePassword, empty target, context `is_login_page = true`) fuses to
level "critical", yet `check_action` offers a confirmation prompt and, when
the user answers `y`, returns `allowed = true` - it is neither auto-blocked
nor denied a prompt, contradicting the claim. -/
theorem c1_counterexample :
    caOk (checkAction highState .typePassword "" loginRaw ["y"] 0 "") = true ∧
    caLevel (checkAction highState .typePassword "" loginRaw ["y"] 0 "") = "critical" ∧
    caAllowed (checkAction highState .typePassword "" loginRaw ["y"] 0 "") = true ∧
    caPrompted (checkAction highState .typePassword "" loginRaw ["y"] 0 "") = true := by
  decide

/-- C1 (amended): under HIGH enforcement, a non-memoized action whose fused
risk level is "high" or "critical" always has a fused score above 20, so
`check_action` routes it through the confirmation gate (the score-threshold
path) rather than the auto-block branch; the HIGH auto-block code is
reachable only for a high/critical level with score at most 20, which the
level/score consistency of both assessors rules out. -/
theorem c1_theorem (s : SecState) (a : ActionType) (t : String) (raw : Ctx)
    (inputs : List String) (now : ℚ) (iso : String)
    (_hlvl : s.securityLevel = .high)
    (hmem : layerHashOf s now a t raw ∉ s.confirmedActions)
    (hok : caOk (checkAction s a t raw inputs now iso) = true)
    (hhc : caLevel (checkAction s a t raw inputs now iso) = "high" ∨
           caLevel (checkAction s a t raw inputs now iso) = "critical") :
    20 < caScore (checkAction s a t raw inputs now iso) ∧
    caUsedGate (checkAction s a t raw inputs now iso) = true := by
  have hcore := checkAction_core_eq s a t raw inputs now iso hmem hok
  rw [hcore] at hhc ⊢
  have hassess := checkActionCore_assessment s a t raw inputs now iso
  simp only [caLevel, caScore, caUsedGate, caGet] at hhc ⊢
  rw [hassess] at hhc
  have hsc : 60 ≤ (fusedOf s.rules a t raw).score :=
    fusedOf_high_or_crit_score s.rules a t raw hhc
  have h20 : 20 < (fusedOf s.rules a t raw).score := by linarith
  constructor
  · rw [hassess]; exact h20
  · rw [checkActionCore_gt20 s a t raw inputs now iso h20]

/-- Witness for `c1_theorem` at the concrete HIGH-level scenario. -/
theorem c1_witness :
    20 < caScore (checkAction highState .typePassword "" loginRaw ["y"] 0 "") ∧
    caUsedGate (checkAction highState .typePassword "" loginRaw ["y"] 0 "") = true :=
  c1_theorem highState .typePassword "" loginRaw ["y"] 0 "" rfl
    (by decide) (by decide) (Or.inr (by decide))

/-! ### Claim C2 -/

/-- In `_get_user_decision`, an "approved_all" reason is only ever paired
with an allow. -/
lemma getUserDecision_approved_all (l : List String)
    (h : (getUserDecision l).2 = "approved_all") : (getUserDecision l).1 = true := by
  induction l with
  | nil => simp [getUserDecision] at h
  | cons r rest ih =>
      unfold getUserDecision at h ⊢
      dsimp only at h ⊢
      split_ifs at h ⊢ <;> simp_all

/-- C2: on every non-memoized, non-exceptional run whose fused score
exceeds 20 - under any enforcement level - `check_action` consults the
ConfirmationGate, returns its decision as the allowed flag, memoizes the
action hash on an allow-all decision, logs the outcome, and delivers the
event to the registered callbacks. -/
theorem c2_theorem (s : SecState) (a : ActionType) (t : String) (raw : Ctx)
    (inputs : List String) (now : ℚ) (iso : String)
    (hmem : layerHashOf s now a t raw ∉ s.confirmedActions)
    (hok : caOk (checkAction s a t raw inputs now iso) = true)
    (hsc : 20 < (fusedOf s.rules a t raw).score) :
    caUsedGate (checkAction s a t raw inputs now iso) = true ∧
    caAllowed (checkAction s a t raw inputs now iso) =
      (gateOf s now a t raw inputs).allowed ∧
    ((gateOf s now a t raw inputs).allowed = true ∧
       (gateOf s now a t raw inputs).reason = "approved_all" →
       layerHashOf s now a t raw ∈
         (caState (checkAction s a t raw inputs now iso)).confirmedActions) ∧
    (caState (checkAction s a t raw inputs now iso)).audit =
      logAction s.audit iso a t (fusedOf s.rules a t raw)
        (gateOf s now a t raw inputs).allowed (enrichOf a t raw) ∧
    (caState (checkAction s a t raw inputs now iso)).notified =
      s.notified ++ [callbackEvent (enrichOf a t raw) a t (fusedOf s.rules a t raw)
        (gateOf s now a t raw inputs).allowed (gateOf s now a t raw inputs).reason] := by
  rw [checkAction_core_eq s a t raw inputs now iso hmem hok,
    checkActionCore_gt20 s a t raw inputs now iso hsc]
  refine ⟨rfl, rfl, ?_, rfl, rfl⟩
  intro h
  obtain ⟨hall, hreason⟩ := h
  simp [caState, caGet, hall, hreason]

/-- Witness for `c2_theorem` at the concrete MEDIUM-level scenario. -/
theorem c2_witness :
    caUsedGate (checkAction medState .typePassword "" loginRaw ["y"] 0 "") = true ∧
    caAllowed (checkAction medState .typePassword "" loginRaw ["y"] 0 "") =
      (gateOf medState 0 .typePassword "" loginRaw ["y"]).allowed ∧
    ((gateOf medState 0 .typePassword "" loginRaw ["y"]).allowed = true ∧
       (gateOf medState 0 .typePassword "" loginRaw ["y"]).reason = "approved_all" →
       layerHashOf medState 0 .typePassword "" loginRaw ∈
         (caState (checkAction medState .typePassword "" loginRaw ["y"] 0 "")).confirmedActions) ∧
    (caState (checkAction medState .typePassword "" loginRaw ["y"] 0 "")).audit =
      logAction medState.audit "" .typePassword "" (fusedOf medState.rules .typePassword "" loginRaw)
        (gateOf medState 0 .typePassword "" loginRaw ["y"]).allowed (enrichOf .typePassword "" loginRaw) ∧
    (caState (checkAction medState .typePassword "" loginRaw ["y"] 0 "")).notified =
      medState.notified ++ [callbackEvent (enrichOf .typePassword "" loginRaw) .typePassword ""
        (fusedOf medState.rules .typePassword "" loginRaw)
        (gateOf medState 0 .typePassword "" loginRaw ["y"]).allowed
        (gateOf medState 0 .typePassword "" loginRaw ["y"]).reason] :=
  c2_theorem medState .typePassword "" loginRaw ["y"] 0 "" (by decide) (by decide) (by decide)

/-! ### Claim C3 -/

lemma assessorRiskOf_level (a : ActionType) (t : String) (raw : Ctx) :
    (assessorRiskOf a t raw).level = levelOfScore (assessorRiskOf a t raw).score :=
  assessRisk_level a t _

lemma eraseDups_loop_mem (x : String) :
    ∀ (as bs : List String), x ∈ List.eraseDups.loop as bs ↔ x ∈ bs ∨ x ∈ as := by
  intro as
  induction as with
  | nil => intro bs; simp [List.eraseDups.loop]
  | cons a t ih =>
      intro bs
      unfold List.eraseDups.loop
      cases hb : bs.elem a with
      | true =>
          rw [List.elem_iff] at hb
          rw [ih]
          simp only [List.mem_cons]
          constructor
          · rintro (h | h)
            · exact Or.inl h
            · exact Or.inr (Or.inr h)
          · rintro (h | h | h)
            · exact Or.inl h
            · exact Or.inl (h ▸ hb)
            · exact Or.inr h
      | false =>
          rw [ih]
          simp only [List.mem_cons]
          tauto

lemma mem_eraseDups {x : String} {l : List String} : x ∈ l.eraseDups ↔ x ∈ l := by
  unfold List.eraseDups
  rw [eraseDups_loop_mem]
  simp

/-- C3: on every non-memoized, non-exceptional run the returned assessment
fuses the two sub-assessments exactly as the spec says: the score is the
maximum, the level comes from the strictly-larger score with the rule
engine winning ties (levels agree on ties, both being determined by the
same thresholds), the triggered rules are the union of the two lists, and
the recommendations are the RiskAssessor's. -/
theorem c3_theorem (s : SecState) (a : ActionType) (t : String) (raw : Ctx)
    (inputs : List String) (now : ℚ) (iso : String)
    (hmem : layerHashOf s now a t raw ∉ s.confirmedActions)
    (hok : caOk (checkAction s a t raw inputs now iso) = true) :
    caScore (checkAction s a t raw inputs now iso) =
      max (ruleRiskOf s.rules a t raw).score (assessorRiskOf a t raw).score ∧
    caLevel (checkAction s a t raw inputs now iso) =
      (if (assessorRiskOf a t raw).score ≤ (ruleRiskOf s.rules a t raw).score then
        (ruleRiskOf s.rules a t raw).level
      else (assessorRiskOf a t raw).level) ∧
    (∀ x, x ∈ (caAssessment (checkAction s a t raw inputs now iso)).triggeredRules ↔
      (x ∈ (ruleRiskOf s.rules a t raw).triggeredRules ∨
       x ∈ (assessorRiskOf a t raw).triggeredRules)) ∧
    (caAssessment (checkAction s a t raw inputs now iso)).recommendations =
      (assessorRiskOf a t raw).recommendations := by
  rw [checkAction_core_eq s a t raw inputs now iso hmem hok]
  simp only [caScore, caLevel, caAssessment, caState, caGet]
  rw [checkActionCore_assessment s a t raw inputs now iso]
  refine ⟨rfl, ?_, ?_, rfl⟩
  · unfold fusedOf fuseAssess
    rcases lt_trichotomy (assessorRiskOf a t raw).score (ruleRiskOf s.rules a t raw).score
      with hlt | heq | hgt
    · rw [if_pos hlt, if_pos (le_of_lt hlt)]
    · rw [if_neg (by rw [heq]; exact lt_irrefl _), if_pos (le_of_eq heq)]
      show (assessorRiskOf a t raw).level = (ruleRiskOf s.rules a t raw).level
      rw [assessorRiskOf_level, ruleRiskOf_level, heq]
    · rw [if_neg (not_lt_of_gt hgt), if_neg (not_le_of_gt hgt)]
  · intro x
    unfold fusedOf fuseAssess
    show x ∈ ((ruleRiskOf s.rules a t raw).triggeredRules ++
      (assessorRiskOf a t raw).triggeredRules).eraseDups ↔ _
    rw [mem_eraseDups, List.mem_append]

/-- Witness for `c3_theorem` at the concrete MEDIUM-level scenario. -/
theorem c3_witness :
    caScore (checkAction medState .typePassword "" loginRaw ["y"] 0 "") =
      max (ruleRiskOf medState.rules .typePassword "" loginRaw).score
        (assessorRiskOf .typePassword "" loginRaw).score ∧
    caLevel (checkAction medState .typePassword "" loginRaw ["y"] 0 "") =
      (if (assessorRiskOf .typePassword "" loginRaw).score ≤
          (ruleRiskOf medState.rules .typePassword "" loginRaw).score then
        (ruleRiskOf medState.rules .typePassword "" loginRaw).level
      else (assessorRiskOf .typePassword "" loginRaw).level) ∧
    (∀ x, x ∈ (caAssessment (checkAction medState .typePassword "" loginRaw ["y"] 0 "")).triggeredRules ↔
      (x ∈ (ruleRiskOf medState.rules .typePassword "" loginRaw).triggeredRules ∨
       x ∈ (assessorRiskOf .typePassword "" loginRaw).triggeredRules)) ∧
    (caAssessment (checkAction medState .typePassword "" loginRaw ["y"] 0 "")).recommendations =
      (assessorRiskOf .typePassword "" loginRaw).recommendations :=
  c3_theorem medState .typePassword "" loginRaw ["y"] 0 "" (by decide) (by decide)

/-! ### Claim C4 -/

/-- The gate only reports "approved_all" together with an allow. -/
lemma gateOf_approved_all (s : SecState) (now : ℚ) (a : ActionType) (t : String)
    (raw : Ctx) (inputs : List String)
    (h : (gateOf s now a t raw inputs).reason = "approved_all") :
    (gateOf s now a t raw inputs).allowed = true := by
  unfold gateOf requestConfirmation at h ⊢
  dsimp only at h ⊢
  split_ifs at h ⊢
  · simp at h
  · exact getUserDecision_approved_all inputs h

/-- C4: (i) whenever `check_action` returns after an "approved_all" gate
decision, the action hash has been memoized into `confirmed_actions`;
(ii) re-submitting an action whose (identical) hash is memoized
short-circuits to `allowed = true` with the constant zero-score / "low" /
`["previously_confirmed"]` / confidence-1 assessment, without consulting the
gate - and, the state being universally quantified, without the rule set
influencing the result. -/
theorem c4_theorem :
    (∀ (s : SecState) (a : ActionType) (t : String) (raw : Ctx)
       (inputs : List String) (now : ℚ) (iso : String),
       caOk (checkAction s a t raw inputs now iso) = true →
       caGateReason (checkAction s a t raw inputs now iso) = some "approved_all" →
       layerHashOf s now a t raw ∈
         (caState (checkAction s a t raw inputs now iso)).confirmedActions) ∧
    (∀ (s : SecState) (a : ActionType) (t : String) (raw : Ctx)
       (inputs : List String) (now : ℚ) (iso : String),
       layerHashOf s now a t raw ∈ s.confirmedActions →
       caOk (checkAction s a t raw inputs now iso) = true ∧
       caAllowed (checkAction s a t raw inputs now iso) = true ∧
       caAssessment (checkAction s a t raw inputs now iso) = prevConfirmedAssessment ∧
       caUsedGate (checkAction s a t raw inputs now iso) = false ∧
       caPrompted (checkAction s a t raw inputs now iso) = false) := by
  constructor
  · intro s a t raw inputs now iso hok hreason
    by_cases hmem : layerHashOf s now a t raw ∈ s.confirmedActions
    · rw [checkAction_memo_eq s a t raw inputs now iso hmem] at hreason
      simp [caGateReason, caGet, checkActionMemo] at hreason
    · rw [checkAction_core_eq s a t raw inputs now iso hmem hok] at hreason ⊢
      by_cases hsc : 20 < (fusedOf s.rules a t raw).score
      · rw [checkActionCore_gt20 s a t raw inputs now iso hsc] at hreason ⊢
        simp only [caGateReason, caGet, Option.some.injEq] at hreason
        have hall := gateOf_approved_all s now a t raw inputs hreason
        simp [caState, caGet, hall, hreason]
      · rw [checkActionCore_le20 s a t raw inputs now iso hsc] at hreason
        simp [caGateReason, caGet] at hreason
  · intro s a t raw inputs now iso hmem
    rw [checkAction_memo_eq s a t raw inputs now iso hmem]
    exact ⟨rfl, rfl, rfl, rfl, rfl⟩

/-- Witness for `c4_theorem`: both parts instantiated - the allow-all run
memoizes its hash, and the memoized state short-circuits. -/
theorem c4_witness :
    (layerHashOf medState 0 .typePassword "" loginRaw ∈
      (caState (checkAction medState .typePassword "" loginRaw ["a"] 0 "")).confirmedActions) ∧
    (caOk (checkAction memoState .type "" [] [] 0 "") = true ∧
     caAllowed (checkAction memoState .type "" [] [] 0 "") = true ∧
     caAssessment (checkAction memoState .type "" [] [] 0 "") = prevConfirmedAssessment ∧
     caUsedGate (checkAction memoState .type "" [] [] 0 "") = false ∧
     caPrompted (checkAction memoState .type "" [] [] 0 "") = false) :=
  ⟨c4_theorem.1 medState .typePassword "" loginRaw ["a"] 0 "" (by decide) (by decide),
   c4_theorem.2 memoState .type "" [] [] 0 "" (List.Mem.head _)⟩

/-! ### Claim C5 -/

/-- C5 (counterexample): a memoized-approved short-circuit returns
`allowed = true` with the `previously_confirmed` assessment but writes
nothing to the AuditLogger - its event buffer stays empty and
`total_events` stays 0, contradicting the claim that the short-circuit is
logged as a zero-risk, pre-approved event. -/
theorem c5_counterexample :
    caOk (checkAction memoState .type "" [] [] 0 "") = true ∧
    caAllowed (checkAction memoState .type "" [] [] 0 "") = true ∧
    (caAssessment (checkAction memoState .type "" [] [] 0 "")).triggeredRules =
      ["previously_confirmed"] ∧
    (caState (checkAction memoState .type "" [] [] 0 "")).audit.events.length = 0 ∧
    (caState (checkAction memoState .type "" [] [] 0 "")).audit.stats.totalEvents = 0 := by
  rw [checkAction_memo_eq memoState .type "" [] [] 0 "" (List.Mem.head _)]
  exact ⟨rfl, rfl, rfl, rfl, rfl⟩

/-- C5 (amended): every memoized-approved short-circuit of `check_action`
bypasses the scoring pipeline and returns without logging anything: the
AuditLogger state is returned unchanged. -/
theorem c5_theorem (s : SecState) (a : ActionType) (t : String) (raw : Ctx)
    (inputs : List String) (now : ℚ) (iso : String)
    (hmem : layerHashOf s now a t raw ∈ s.confirmedActions) :
    caOk (checkAction s a t raw inputs now iso) = true ∧
    caAllowed (checkAction s a t raw inputs now iso) = true ∧
    (caState (checkAction s a t raw inputs now iso)).audit = s.audit := by
  rw [checkAction_memo_eq s a t raw inputs now iso hmem]
  exact ⟨rfl, rfl, rfl⟩

/-- Witness for `c5_theorem` at the memoized fixture. -/
theorem c5_witness :
    caOk (checkAction memoState .type "" [] ["n"] 0 "") = true ∧
    caAllowed (checkAction memoState .type "" [] ["n"] 0 "") = true ∧
    (caState (checkAction memoState .type "" [] ["n"] 0 "")).audit = memoState.audit :=
  c5_theorem memoState .type "" [] ["n"] 0 "" (List.Mem.head _)

/-! ### Claim C7 -/

/-- For navigation kinds every rule is skipped before its pattern is ever
consulted, so the per-rule step is always a clean non-trigger. -/
lemma ruleTriggerStep_nav (a : ActionType)
    (hnav : a = .navigate ∨ a = .navigateExternal) (t : String) (ctx : Ctx)
    (r : SecurityRule) : ruleTriggerStep a t ctx r = .ok false := by
  unfold ruleTriggerStep
  rcases hnav with h | h <;> subst h <;>
    · split
      · rfl
      · simp

lemma collectTriggered_nav (a : ActionType)
    (hnav : a = .navigate ∨ a = .navigateExternal) (t : String) (ctx : Ctx) :
    ∀ rules, collectTriggered a t ctx rules = .ok [] := by
  intro rules
  induction rules with
  | nil => rfl
  | cons r rest ih =>
      unfold collectTriggered
      rw [ruleTriggerStep_nav a hnav t ctx r]
      simp only [Except.bind, bind, ih]
      rfl

/-- Navigation forces the rule-side score to the constant 5. -/
lemma ruleRiskOf_nav_score (rules : List SecurityRule) (a : ActionType)
    (t : String) (raw : Ctx) (hnav : a = .navigate ∨ a = .navigateExternal) :
    (ruleRiskOf rules a t raw).score = 5 := by
  unfold ruleRiskOf evaluateRules
  rw [collectTriggered_nav a hnav]
  unfold ruleRiskFromTriggered
  rcases hnav with h | h <;> subst h <;> simp

lemma qmin_le_right (a b : ℚ) : qmin a b ≤ b := by
  unfold qmin
  split_ifs with h
  · exact h
  · exact le_refl b

/-- Navigation clamps the assessor-side score to at most 25. -/
lemma assessRisk_nav_le (a : ActionType)
    (hnav : a = .navigate ∨ a = .navigateExternal) (t : String) (ctx : Ctx) :
    (assessRisk a t ctx).score ≤ 25 := by
  rcases hnav with h | h <;> subst h <;> exact qmin_le_right _ 25

/-- C7: for every Navigate / NavigateExternal action, under any state,
context and input, the assessment returned by `check_action` has a fused
score of at most 25: the rule side is forced to 5 and the assessor side is
clamped to 25, and the memoized path returns score 0. -/
theorem c7_theorem (s : SecState) (a : ActionType) (t : String) (raw : Ctx)
    (inputs : List String) (now : ℚ) (iso : String)
    (hnav : a = .navigate ∨ a = .navigateExternal)
    (hok : caOk (checkAction s a t raw inputs now iso) = true) :
    caScore (checkAction s a t raw inputs now iso) ≤ 25 := by
  by_cases hmem : layerHashOf s now a t raw ∈ s.confirmedActions
  · rw [checkAction_memo_eq s a t raw inputs now iso hmem]
    norm_num [caScore, caGet, checkActionMemo, prevConfirmedAssessment]
  · rw [checkAction_core_eq s a t raw inputs now iso hmem hok]
    simp only [caScore, caGet]
    rw [checkActionCore_assessment s a t raw inputs now iso]
    show max (ruleRiskOf s.rules a t raw).score (assessorRiskOf a t raw).score ≤ 25
    rw [ruleRiskOf_nav_score s.rules a t raw hnav]
    exact max_le (by norm_num) (assessRisk_nav_le a hnav t _)

/-- Witness for `c7_theorem` on a concrete navigation. -/
theorem c7_witness :
    caScore (checkAction medState .navigate "" [] [] 0 "") ≤ 25 :=
  c7_theorem medState .navigate "" [] [] 0 "" (Or.inl rfl) (by decide)

/-! ### Claim C6 -/

/-- C6 (counterexample): with the key `(type, "t", no current_url)` freshly
cached from a call whose context was `{"a": true}`, a second call with the
SAME key but the EMPTY context returns the first call's hash - which is not
the digest of the context passed to that very call. -/
theorem c6_counterexample :
    (generateActionHash 0 .type "t" []
        (generateActionHash 0 .type "t" [("a", JVal.b true)] []).2).1 =
      (generateActionHash 0 .type "t" [("a", JVal.b true)] []).1 ∧
    (generateActionHash 0 .type "t" []
        (generateActionHash 0 .type "t" [("a", JVal.b true)] []).2).1 ≠
      freshActionHash .type "t" [] := by
  decide

/-- C6 (amended): `generate_action_hash` is memoized by
`(kind, target, current_url)` with a 10-minute TTL.  (a) With no cache entry
for that key, the call returns the deterministic digest of its own
arguments; (b) with a fresh cache entry, it returns the cached hash -
which reflects the context of the call that created the entry, not
necessarily this call's context; (c) in particular two calls with equal
tuples started from a cache holding no entry for the key always return the
same hash. -/
theorem c6_theorem :
    (∀ (a : ActionType) (t : String) (ctx : Ctx) (cache : HashCache) (now : ℚ),
       cache.find? (fun e => e.1 = cacheKeyOf a t ctx) = none →
       (generateActionHash now a t ctx cache).1 = freshActionHash a t ctx) ∧
    (∀ (a : ActionType) (t : String) (ctx : Ctx) (cache : HashCache) (now : ℚ)
       (e : String × String × ℚ),
       cache.find? (fun e => e.1 = cacheKeyOf a t ctx) = some e →
       now - e.2.2 < cacheTTL →
       (generateActionHash now a t ctx cache).1 = e.2.1) ∧
    (∀ (a : ActionType) (t : String) (ctx : Ctx) (cache : HashCache) (now1 now2 : ℚ),
       cache.find? (fun e => e.1 = cacheKeyOf a t ctx) = none →
       (generateActionHash now2 a t ctx (generateActionHash now1 a t ctx cache).2).1 =
         (generateActionHash now1 a t ctx cache).1) := by
  refine ⟨?_, ?_, ?_⟩
  · intro a t ctx cache now hfind
    unfold generateActionHash
    dsimp only
    rw [hfind]
  · intro a t ctx cache now e hfind htime
    unfold generateActionHash
    dsimp only
    rw [hfind]
    simp [htime]
  · intro a t ctx cache now1 now2 hfind
    have h1 : (generateActionHash now1 a t ctx cache) =
        (freshActionHash a t ctx,
          cleanHashCache now1 (cacheSet cache (cacheKeyOf a t ctx)
            (freshActionHash a t ctx, now1))) := by
      unfold generateActionHash
      dsimp only
      rw [hfind]
    have hnone : ∀ x ∈ cache, x.1 ≠ cacheKeyOf a t ctx := by
      intro x hx
      have h := List.find?_eq_none.mp hfind x hx
      simpa using h
    have hany : cache.any (fun e => e.1 = cacheKeyOf a t ctx) = false := by
      by_contra hcon
      rw [Bool.not_eq_false, List.any_eq_true] at hcon
      obtain ⟨x, hx, hpx⟩ := hcon
      exact hnone x hx (by simpa using hpx)
    have hset : cacheSet cache (cacheKeyOf a t ctx) (freshActionHash a t ctx, now1) =
        cache ++ [(cacheKeyOf a t ctx, freshActionHash a t ctx, now1)] := by
      unfold cacheSet
      rw [hany]
      simp
    have hq : ¬ ((cacheTTL : ℚ) < now1 - now1) := by
      rw [sub_self]
      norm_num [cacheTTL]
    have hkeep : cleanHashCache now1
        (cache ++ [(cacheKeyOf a t ctx, freshActionHash a t ctx, now1)]) =
        cleanHashCache now1 cache ++
          [(cacheKeyOf a t ctx, freshActionHash a t ctx, now1)] := by
      unfold cleanHashCache
      rw [List.filter_append]
      simp only [List.filter, hq]
      rfl
    have hfind2 : (cleanHashCache now1 cache ++
        [(cacheKeyOf a t ctx, freshActionHash a t ctx, now1)]).find?
          (fun e => decide (e.1 = cacheKeyOf a t ctx)) =
        some (cacheKeyOf a t ctx, freshActionHash a t ctx, now1) := by
      rw [List.find?_append]
      have hleft : (cleanHashCache now1 cache).find?
          (fun e => decide (e.1 = cacheKeyOf a t ctx)) = none := by
        rw [List.find?_eq_none]
        intro x hx
        simp only [decide_eq_true_eq]
        exact hnone x (List.mem_of_mem_filter hx)
      rw [hleft]
      simp
    rw [h1]
    rw [hset, hkeep]
    unfold generateActionHash
    dsimp only
    rw [hfind2]
    dsimp only
    split_ifs <;> rfl

/-- Witness for `c6_theorem`: all three parts instantiated at an empty
cache (and, for (b), at a singleton cache holding a fresh entry). -/
theorem c6_witness :
    ((generateActionHash 0 .type "t" [] []).1 = freshActionHash .type "t" []) ∧
    ((generateActionHash 0 .type "t" [] [(cacheKeyOf .type "t" [], "h0", 0)]).1 = "h0") ∧
    ((generateActionHash 1 .type "t" [] (generateActionHash 0 .type "t" [] []).2).1 =
      (generateActionHash 0 .type "t" [] []).1) :=
  ⟨c6_theorem.1 .type "t" [] [] 0 rfl,
   c6_theorem.2.1 .type "t" [] [(cacheKeyOf .type "t" [], "h0", 0)] 0
     (cacheKeyOf .type "t" [], "h0", 0) (by decide) (by norm_num [cacheTTL]),
   c6_theorem.2.2 .type "t" [] [] 0 1 rfl⟩

/-! ### Claim C9 -/

/-- C9 (counterexample): with a malformed-pattern rule in front of a valid
rule, `evaluate_rules` raises `re.error` and aborts - the remaining rule is
never evaluated and the call does not complete, contradicting the claim
that a bad pattern is caught per-rule and skipped. -/
theorem c9_counterexample :
    evaluateRules [malformedRule, benignRule] .type "x" [] = .error "re.error: (" := rfl

lemma collectTriggered_error (a : ActionType) (t : String) (ctx : Ctx) (msg : String)
    (r : SecurityRule) (post : List SecurityRule) :
    ∀ pre : List SecurityRule,
      (∀ r' ∈ pre, ∃ b, ruleTriggerStep a t ctx r' = .ok b) →
      ruleTriggerStep a t ctx r = .error msg →
      collectTriggered a t ctx (pre ++ r :: post) = .error msg := by
  intro pre
  induction pre with
  | nil =>
      intro _ hstep
      show collectTriggered a t ctx (r :: post) = .error msg
      unfold collectTriggered
      rw [hstep]
      rfl
  | cons p rest ih =>
      intro hpre hstep
      obtain ⟨b, hb⟩ := hpre p (List.mem_cons_self p rest)
      have ih' := ih (fun r' hr' => hpre r' (List.mem_cons_of_mem p hr')) hstep
      show collectTriggered a t ctx (p :: (rest ++ r :: post)) = .error msg
      unfold collectTriggered
      rw [hb]
      show (collectTriggered a t ctx (rest ++ r :: post)).bind _ = .error msg
      rw [ih']
      rfl

/-- C9 (amended): there is no per-rule exception handling in
`evaluate_rules`: as soon as the loop reaches an applicable rule whose
regex pattern raises, the whole call raises that `re.error` - whatever
rules follow, they are not evaluated (the result does not depend on them). -/
theorem c9_theorem (pre post : List SecurityRule) (r : SecurityRule) (a : ActionType)
    (t : String) (ctx : Ctx) (msg : String)
    (hstep : ruleTriggerStep a t ctx r = .error msg)
    (hpre : ∀ r' ∈ pre, ∃ b, ruleTriggerStep a t ctx r' = .ok b) :
    evaluateRules (pre ++ r :: post) a t ctx = .error msg := by
  unfold evaluateRules
  rw [collectTriggered_error a t ctx msg r post pre hpre hstep]

/-- Witness for `c9_theorem`: the malformed rule sandwiched between two
valid rules aborts the evaluation. -/
theorem c9_witness :
    evaluateRules ([benignRule] ++ malformedRule :: [benignRule]) .type "x" [] =
      .error "re.error: (" :=
  c9_theorem [benignRule] [benignRule] malformedRule .type "x" [] "re.error: (" rfl
    (fun r' hr' => by
      rw [List.mem_singleton] at hr'
      subst hr'
      exact ⟨true, rfl⟩)

/-! ### Claim C10 -/

/-- C10 (counterexample): for kind TypePassword, target "mypassword123",
context `{is_login_page: true}`, the pattern stage does NOT flag
`contains_passwords` - neither at the top level of the enriched context nor
even inside the nested `pattern_analysis.context` (the keyword regex is
word-boundary delimited and "mypassword123" has no boundary around
"password") - and the RuleEngine does NOT trigger `password_input` (that
rule applies to kind `type`, not `type_password`). -/
theorem c10_counterexample :
    jgetB (enrichOf .typePassword "mypassword123" loginRaw) "contains_passwords" = false ∧
    paContainsPasswords (enrichOf .typePassword "mypassword123" loginRaw) = false ∧
    "password_input" ∉
      (ruleRiskOf defaultRules .typePassword "mypassword123" loginRaw).triggeredRules := by
  decide

/-- C10 (amended): in that scenario the triggered rule set is exactly
`["context_login_flow_password"]`, the fused level is "critical" (which is
in the claimed high/critical range), and a confirmation is requested; the
`contains_passwords` flag stays false and `password_input` stays
untriggered. -/
theorem c10_theorem :
    (ruleRiskOf defaultRules .typePassword "mypassword123" loginRaw).triggeredRules =
      ["context_login_flow_password"] ∧
    caOk (checkAction medState .typePassword "mypassword123" loginRaw ["y"] 0 "") = true ∧
    caLevel (checkAction medState .typePassword "mypassword123" loginRaw ["y"] 0 "") =
      "critical" ∧
    caUsedGate (checkAction medState .typePassword "mypassword123" loginRaw ["y"] 0 "") =
      true ∧
    caPrompted (checkAction medState .typePassword "mypassword123" loginRaw ["y"] 0 "") =
      true ∧
    jgetB (enrichOf .typePassword "mypassword123" loginRaw) "contains_passwords" = false ∧
    "password_input" ∉
      (caAssessment (checkAction medState .typePassword "mypassword123" loginRaw
        ["y"] 0 "")).triggeredRules := by
  decide

/-! ### Claim C8 -/

lemma foldl_logEvent_stats (cap : ℕ) (L : List SecurityEvent) :
    ((L.foldl logEvent { maxEvents := cap }).stats) = statsOf L := by
  induction L using List.reverseRecOn with
  | nil => rfl
  | append_singleton M e ih =>
      rw [List.foldl_append]
      simp only [List.foldl_cons, List.foldl_nil]
      revert ih
      generalize List.foldl logEvent { maxEvents := cap } M = st
      intro ih
      unfold logEvent
      dsimp only
      unfold statsOf at ih ⊢
      simp only [List.filter_append, List.length_append, List.filter_cons,
        List.filter_nil]
      rw [ih]
      by_cases hcr : e.riskAssessment.level = "critical" <;>
        by_cases hhi : e.riskAssessment.level = "high" <;>
        by_cases hme : e.riskAssessment.level = "medium" <;>
        by_cases hco : e.confirmed = true <;>
        simp_all

lemma foldl_logEvent_events (cap : ℕ) (hcap : 0 < cap) (L : List SecurityEvent) :
    (L.foldl logEvent { maxEvents := cap }).events = L.drop (L.length - cap) := by
  induction L using List.reverseRecOn with
  | nil => simp
  | append_singleton M e ih =>
      rw [List.foldl_append]
      have hmax : (List.foldl logEvent { maxEvents := cap } M).maxEvents = cap := by
        clear ih
        induction M using List.reverseRecOn with
        | nil => rfl
        | append_singleton M' e' ih' =>
            rw [List.foldl_append]
            simp only [List.foldl_cons, List.foldl_nil]
            revert ih'
            generalize List.foldl logEvent { maxEvents := cap } M' = st
            intro ih'
            unfold logEvent
            dsimp only
            exact ih'
      simp only [List.foldl_cons, List.foldl_nil]
      revert ih hmax
      generalize List.foldl logEvent { maxEvents := cap } M = st
      intro ih hmax
      unfold logEvent
      dsimp only
      rw [ih, hmax]
      have hlen : (M.drop (M.length - cap) ++ [e]).length =
          M.length - (M.length - cap) + 1 := by
        simp
      by_cases hc : cap ≤ M.length
      · have h1 : M.length - (M.length - cap) = cap := by omega
        rw [hlen, h1]
        have h2 : cap < cap + 1 := by omega
        rw [if_pos h2]
        unfold pyLastN
        rw [if_neg (by omega)]
        have h3 : (M.drop (M.length - cap) ++ [e]).length - cap = 1 := by
          rw [hlen, h1]
          omega
        rw [h3]
        have h4 : (1 : ℕ) ≤ (M.drop (M.length - cap)).length := by
          simp
          omega
        rw [List.drop_append_of_le_length h4, List.drop_drop]
        have h5 : (M ++ [e]).length - cap = M.length + 1 - cap := by simp
        rw [h5]
        have h6 : M.length + 1 - cap ≤ M.length := by omega
        rw [List.drop_append_of_le_length h6]
        have h7 : M.length - cap + 1 = M.length + 1 - cap := by omega
        rw [h7]
      · have h1 : M.length - cap = 0 := by omega
        rw [hlen, h1]
        rw [if_neg (by simp; omega)]
        have h5 : (M ++ [e]).length - cap = 0 := by simp; omega
        rw [h5]
        simp

/-- C8: (i) starting from a fresh logger of any positive capacity, after
logging any sequence of events the buffer holds exactly the most recent
events (all of them while they fit, else the last `cap`), so it never
exceeds the capacity, while the cumulative counters equal the counts over
the entire logged history including evicted events; (ii) in particular
after 1001 events on the default capacity-1000 logger, the stats count all
1001 events, the buffer holds 1000, and the oldest event has been evicted
(the buffer is the history minus its first event). -/
theorem c8_theorem :
    (∀ (L : List SecurityEvent) (cap : ℕ), 0 < cap →
      (L.foldl logEvent { maxEvents := cap }).events = L.drop (L.length - cap) ∧
      (L.foldl logEvent { maxEvents := cap }).events.length ≤ cap ∧
      (L.foldl logEvent { maxEvents := cap }).stats = statsOf L) ∧
    (∀ e : SecurityEvent,
      ((List.replicate 1001 e).foldl logEvent ({} : AuditState)).stats.totalEvents = 1001 ∧
      ((List.replicate 1001 e).foldl logEvent ({} : AuditState)).events.length = 1000 ∧
      ((List.replicate 1001 e).foldl logEvent ({} : AuditState)).events =
        (List.replicate 1001 e).drop 1) := by
  constructor
  · intro L cap hcap
    refine ⟨foldl_logEvent_events cap hcap L, ?_, foldl_logEvent_stats cap L⟩
    rw [foldl_logEvent_events cap hcap L]
    simp only [List.length_drop]
    omega
  · intro e
    have h0 : ({} : AuditState) = { maxEvents := 1000 } := rfl
    rw [h0]
    have h1 := foldl_logEvent_events 1000 (by omega) (List.replicate 1001 e)
    have h2 := foldl_logEvent_stats 1000 (List.replicate 1001 e)
    refine ⟨?_, ?_, ?_⟩
    · rw [h2]
      simp [statsOf]
    · rw [h1]
      simp
    · rw [h1]
      norm_num

/-- Witness for `c8_theorem`: part (i) instantiated at a one-event history
on a capacity-1 logger, part (ii) at a concrete event. -/
theorem c8_witness :
    (([sampleEvent].foldl logEvent { maxEvents := 1 }).events =
        [sampleEvent].drop ([sampleEvent].length - 1) ∧
      ([sampleEvent].foldl logEvent { maxEvents := 1 }).events.length ≤ 1 ∧
      ([sampleEvent].foldl logEvent { maxEvents := 1 }).stats = statsOf [sampleEvent]) ∧
    (((List.replicate 1001 sampleEvent).foldl logEvent ({} : AuditState)).stats.totalEvents = 1001 ∧
     ((List.replicate 1001 sampleEvent).foldl logEvent ({} : AuditState)).events.length = 1000 ∧
     ((List.replicate 1001 sampleEvent).foldl logEvent ({} : AuditState)).events =
       (List.replicate 1001 sampleEvent).drop 1) :=
  ⟨c8_theorem.1 [sampleEvent] 1 (by omega), c8_theorem.2 sampleEvent⟩

end AIBrowser
